import Mathlib

/-!
# Verification of the onam-game team / matchmaking / game-session core

This file gives a shallow embedding of the server-side core of the
`aurora-0025/onam-game` repository and proves properties of it.

Embedded source files:
* the game-session handler (the variant with countdown, restart votes and a
  restart lock): `calculateBarPosition`, `checkGameEnd`, `broadcastGameUpdate`,
  `startCountdown`, `restartGame`, `createGame`, and the `game:click`,
  `game:restart`, `game:leave`, `disconnect` socket handlers;
* the team registry and matchmaking queue (`team.handler.ts`): `enqueueTeam`,
  `dequeueTeam`, `attemptMatch`, and the `team:create`, `team:join`,
  `team:leave`, `team:match:start`, `team:match:cancel`, `disconnect` handlers.

Modelling conventions:
* JavaScript `Map` objects become association lists (`List (String × α)` or
  `List (Nat × α)`) with `mget` / `mset` / `mdel` mirroring `get` / `set` /
  `delete`;
* JavaScript `Set<string>` objects (restart votes, the queue check) become
  duplicate-free `List String` with insertion-order append;
* mutation of an object held in a map becomes re-insertion of the updated
  value under the same key (the JS code mutates the object in place; maps
  hold references, so the two views coincide);
* wall-clock timestamps (`createdAt`, `endedAt`, `Date.now()`), the socket
  `io` argument, and timer arming/cancellation are outside the model; every
  handler instead returns the list of messages it emits, in emission order;
* `socket.id` is the `pid : String` argument of each handler.
-/

/-- `Map.get`: first binding for the key, if any. -/
def mget {α : Type} (m : List (String × α)) (k : String) : Option α :=
  match m with
  | [] => none
  | (k', v) :: rest => if k' = k then some v else mget rest k

/-- `Map.set`: (re)bind the key. -/
def mset {α : Type} (m : List (String × α)) (k : String) (v : α) :
    List (String × α) :=
  (k, v) :: m.filter (fun kv => !(kv.1 == k))

/-- `Map.delete`: drop all bindings of the key. -/
def mdel {α : Type} (m : List (String × α)) (k : String) :
    List (String × α) :=
  m.filter (fun kv => !(kv.1 == k))

/-- In-place update of the value stored under a key (JS reference mutation). -/
def mupd {α : Type} (m : List (String × α)) (k : String) (f : α → α) :
    List (String × α) :=
  match m with
  | [] => []
  | (k', v) :: rest =>
    if k' = k then (k', f v) :: mupd rest k f else (k', v) :: mupd rest k f

theorem mget_mset_self {α : Type} (m : List (String × α)) (k : String) (v : α) :
    mget (mset m k v) k = some v := by
  simp [mget, mset]

theorem mget_mupd {α : Type} (m : List (String × α)) (k : String) (f : α → α) :
    mget (mupd m k f) k = (mget m k).map f := by
  induction m with
  | nil => simp [mget, mupd]
  | cons kv rest ih =>
    obtain ⟨k', v'⟩ := kv
    by_cases h : k' = k
    · subst h
      simp [mget, mupd]
    · simp [mget, mupd, h, ih]

theorem mget_mem {α : Type} {m : List (String × α)} {k : String} {v : α}
    (h : mget m k = some v) : (k, v) ∈ m := by
  induction m with
  | nil => simp [mget] at h
  | cons kv rest ih =>
    obtain ⟨k', v'⟩ := kv
    by_cases hk : k' = k
    · simp only [mget, if_pos hk] at h
      obtain rfl : v' = v := by injection h
      subst hk
      exact List.mem_cons_self _ _
    · simp only [mget, if_neg hk] at h
      exact List.mem_cons_of_mem _ (ih h)

theorem mem_mset {α : Type} {m : List (String × α)} {k : String} {v : α}
    {kv : String × α} (h : kv ∈ mset m k v) : kv = (k, v) ∨ kv ∈ m := by
  simp [mset] at h
  rcases h with h | h
  · left; exact h
  · right; exact h.1

theorem mem_mdel {α : Type} {m : List (String × α)} {k : String}
    {kv : String × α} (h : kv ∈ mdel m k) : kv ∈ m := by
  simp [mdel] at h
  exact h.1

theorem mem_mupd {α : Type} {m : List (String × α)} {k : String} {f : α → α}
    {kv : String × α} (h : kv ∈ mupd m k f) :
    kv ∈ m ∨ ∃ kv' ∈ m, kv = (kv'.1, f kv'.2) := by
  induction m with
  | nil => simp [mupd] at h
  | cons hd rest ih =>
    obtain ⟨k', v'⟩ := hd
    by_cases hk : k' = k
    · simp only [mupd, if_pos hk] at h
      rcases List.mem_cons.mp h with h1 | h1
      · right
        exact ⟨(k', v'), List.mem_cons_self _ _, by simp [h1]⟩
      · rcases ih h1 with h2 | ⟨kv', hm, he⟩
        · left; exact List.mem_cons_of_mem _ h2
        · right; exact ⟨kv', List.mem_cons_of_mem _ hm, he⟩
    · simp only [mupd, if_neg hk] at h
      rcases List.mem_cons.mp h with h1 | h1
      · left; exact h1 ▸ List.mem_cons_self _ _
      · rcases ih h1 with h2 | ⟨kv', hm, he⟩
        · left; exact List.mem_cons_of_mem _ h2
        · right; exact ⟨kv', List.mem_cons_of_mem _ hm, he⟩

/-! ## Game session data model (game handler with countdown and restart) -/

/-- `GamePlayer` from the game handler: id, name, click counter. -/
structure GamePlayer where
  id : String
  name : String
  clicks : Nat
deriving Repr, DecidableEq

/-- `GameTeam`: one side of a session, snapshotted from a registry team. -/
structure GameTeam where
  teamId : String
  name : String
  players : List GamePlayer
  leaderId : String
  totalClicks : Nat
deriving Repr, DecidableEq

/-- `status` field of a session: 'countdown' | 'active' | 'finished'. -/
inductive GameStatus where
  | countdown
  | active
  | finished
deriving Repr, DecidableEq

/-- `winner` field values: 'teamA' | 'teamB'. -/
inductive Winner where
  | teamA
  | teamB
deriving Repr, DecidableEq

/-- `GameState` (timestamps `createdAt` / `endedAt` are outside the model). -/
structure GameState where
  id : String
  teamA : GameTeam
  teamB : GameTeam
  status : GameStatus
  winner : Option Winner
  barPosition : Int
  countdownRemaining : Option Nat
  restartVotesA : List String
  restartVotesB : List String
deriving Repr, DecidableEq

/-- `GAME_CONFIG.CLICK_POWER`. -/
def CLICK_POWER : Int := 1

/-- `GAME_CONFIG.WIN_THRESHOLD`. -/
def WIN_THRESHOLD : Int := 25

/-- `GAME_CONFIG.COUNTDOWN_SECONDS`. -/
def COUNTDOWN_SECONDS : Nat := 3

/-- `calculateBarPosition(teamAClicks, teamBClicks)`:
clamp of `(teamBClicks - teamAClicks) * CLICK_POWER` to the win threshold. -/
def calculateBarPosition (teamAClicks teamBClicks : Nat) : Int :=
  let difference : Int := (teamBClicks : Int) - (teamAClicks : Int)
  let position : Int := difference * CLICK_POWER
  max (-WIN_THRESHOLD) (min WIN_THRESHOLD position)

/-- `checkGameEnd(game)`: threshold win check; returns the updated game and
the boolean the function returns (`endedAt` is not modelled). -/
def checkGameEnd (game : GameState) : GameState × Bool :=
  if game.barPosition ≤ -WIN_THRESHOLD then
    ({ game with status := GameStatus.finished, winner := some Winner.teamA }, true)
  else if game.barPosition ≥ WIN_THRESHOLD then
    ({ game with status := GameStatus.finished, winner := some Winner.teamB }, true)
  else (game, false)

/-- `Set.add`: insertion-order append, idempotent. -/
def addVote (votes : List String) (pid : String) : List String :=
  if pid ∈ votes then votes else votes ++ [pid]

/-- Vote pruning at the top of `broadcastGameUpdate`: drop every vote whose
id is no longer in the corresponding side's player list. -/
def pruneVotes (g : GameState) : GameState :=
  { g with
    restartVotesA :=
      g.restartVotesA.filter (fun i => g.teamA.players.any (fun p => p.id == i)),
    restartVotesB :=
      g.restartVotesB.filter (fun i => g.teamB.players.any (fun p => p.id == i)) }

/-- Empty-side evaluation inside `broadcastGameUpdate`: outside of countdown,
a side with zero players loses to a non-empty opponent. -/
def emptySideCheck (g : GameState) : GameState :=
  if g.status ≠ GameStatus.countdown then
    if g.teamA.players.length = 0 ∧ g.teamB.players.length > 0 then
      { g with status := GameStatus.finished, winner := some Winner.teamB }
    else if g.teamB.players.length = 0 ∧ g.teamA.players.length > 0 then
      { g with status := GameStatus.finished, winner := some Winner.teamA }
    else g
  else g

/-- The `game:update` payload fields relevant to the model (the per-recipient
`yourTeamIsA` flag is attached by the emission step). -/
structure GamePayload where
  gameId : String
  teamA : GameTeam
  teamB : GameTeam
  barPosition : Int
  status : GameStatus
  winner : Option Winner
  countdownRemaining : Option Nat
  restartVotesA : List String
  restartVotesB : List String
deriving Repr, DecidableEq

/-- Messages a game handler emits, in emission order. -/
inductive GEvt where
  | gameError (pid msg : String)
  | gameUpdate (pid : String) (data : GamePayload) (yourTeamIsA : Bool)
  | gameLeft (pid gameId : String)
deriving Repr, DecidableEq

/-- Projection of a session onto the `game:update` payload fields. -/
def payloadOf (g : GameState) : GamePayload :=
  { gameId := g.id, teamA := g.teamA, teamB := g.teamB,
    barPosition := g.barPosition, status := g.status, winner := g.winner,
    countdownRemaining := g.countdownRemaining,
    restartVotesA := g.restartVotesA, restartVotesB := g.restartVotesB }

/-- `broadcastGameUpdate(io, game)`: prune votes, build the payload, run the
empty-side evaluation (which also patches the payload's `status` / `winner`),
then emit `game:update` to every player of both sides.  Returns the mutated
game and the emitted messages.  `baseGameData` is assembled from the pruned
game and then has its `status` and `winner` fields overwritten inside the
empty-side branches; all other fields are untouched by the empty-side check,
so the emitted payload equals the projection of the post-check game. -/
def broadcastGameUpdate (g : GameState) : GameState × List GEvt :=
  let g2 := emptySideCheck (pruneVotes g)
  (g2,
    g2.teamA.players.map (fun p => GEvt.gameUpdate p.id (payloadOf g2) true)
      ++ g2.teamB.players.map (fun p => GEvt.gameUpdate p.id (payloadOf g2) false))

/-- `startCountdown(io, game)` up to its broadcast: set countdown status and
remaining seconds, then broadcast.  The armed interval timer itself is outside
the model (no claim is about ticks). -/
def startCountdown (g : GameState) : GameState × List GEvt :=
  broadcastGameUpdate
    { g with status := GameStatus.countdown,
             countdownRemaining := some COUNTDOWN_SECONDS }

/-- Per-round reset of one side inside `restartGame`. -/
def resetTeam (t : GameTeam) : GameTeam :=
  { t with players := t.players.map (fun p => { p with clicks := 0 }),
           totalClicks := 0 }

/-- The per-round reset block of `restartGame`: zero all click state, clear
winner and votes, return to countdown. -/
def resetForRestart (g : GameState) : GameState :=
  { g with
    teamA := resetTeam g.teamA,
    teamB := resetTeam g.teamB,
    barPosition := 0,
    winner := none,
    status := GameStatus.countdown,
    countdownRemaining := some COUNTDOWN_SECONDS,
    restartVotesA := [],
    restartVotesB := [] }

/-- `restartGame(io, game)`: guarded full reset back to countdown.  `locks` is
the `restartLocks` set; the 500 ms timeout releasing the lock is outside the
model, so the returned lock set still contains the id. -/
def restartGame (locks : List String) (g : GameState) :
    List String × GameState × List GEvt :=
  if g.status ≠ GameStatus.finished then (locks, g, [])
  else if g.teamA.players.length = 0 ∨ g.teamB.players.length = 0 then
    (locks, g, [])
  else if g.id ∈ locks then (locks, g, [])
  else
    (g.id :: locks, (startCountdown (resetForRestart g)).1,
      (startCountdown (resetForRestart g)).2)

/-! ## Game server state and socket handlers -/

/-- Registry `Player` (the captured `socket` object is outside the model). -/
structure Player where
  id : String
  name : String
deriving Repr, DecidableEq

/-- Registry `Team` (also the `Room` of the room-handler variant): invite-code
id, display name, participants in insertion order, leader id, queued flag. -/
structure Team where
  id : String
  name : String
  participants : List Player
  leaderId : String
  inQueue : Bool
deriving Repr, DecidableEq

/-- Module-level game-handler state: `activeGames`, `playerToGame`,
`restartLocks` (countdown timer handles are outside the model). -/
structure GameServerState where
  activeGames : List (String × GameState)
  playerToGame : List (String × String)
  restartLocks : List String
deriving Repr, DecidableEq

/-- Side snapshot taken by `createGame`: players copied with zeroed click
counters; the session is independent of the originating team object. -/
def snapshotTeam (t : Team) : GameTeam :=
  { teamId := t.id, name := t.name,
    players := t.participants.map (fun p => ⟨p.id, p.name, 0⟩),
    leaderId := t.leaderId, totalClicks := 0 }

/-- `createGame(io, gameId, teamA, teamB)`: build the session, register it and
all its players, then `startCountdown` (which broadcasts).  Returns the new
server state, the session as it stands after `startCountdown`, and the
emitted messages. -/
def initialGame (gameId : String) (tA tB : Team) : GameState :=
  { id := gameId,
    teamA := snapshotTeam tA,
    teamB := snapshotTeam tB,
    status := GameStatus.countdown,
    winner := none,
    barPosition := 0,
    countdownRemaining := some COUNTDOWN_SECONDS,
    restartVotesA := [],
    restartVotesB := [] }

def createGame (s : GameServerState) (gameId : String) (tA tB : Team) :
    GameServerState × GameState × List GEvt :=
  ({ s with
      activeGames :=
        mset (mset s.activeGames gameId (initialGame gameId tA tB)) gameId
          (startCountdown (initialGame gameId tA tB)).1,
      playerToGame :=
        ((initialGame gameId tA tB).teamA.players
            ++ (initialGame gameId tA tB).teamB.players).foldl
          (fun m p => mset m p.id gameId) s.playerToGame },
    (startCountdown (initialGame gameId tA tB)).1,
    (startCountdown (initialGame gameId tA tB)).2)

/-- Increment the click counter of the (first) player with the given id. -/
def bumpClick (ps : List GamePlayer) (pid : String) : List GamePlayer :=
  match ps with
  | [] => []
  | p :: rest =>
    if p.id = pid then { p with clicks := p.clicks + CLICK_POWER.toNat } :: rest
    else p :: bumpClick rest pid

/-- The side-independent tail of the `game:click` handler: `game1` is the
session with the clicker's counter and side total already bumped; recompute
the bar, run the threshold check, broadcast, and (on a win with both sides
empty) delete the session instantly. -/
def withBar (game1 : GameState) : GameState :=
  { game1 with
    barPosition :=
      calculateBarPosition game1.teamA.totalClicks game1.teamB.totalClicks }

def clickApply (s : GameServerState) (gameId : String) (game1 : GameState) :
    GameServerState × List GEvt :=
  if (checkGameEnd (withBar game1)).2 = true ∧
      (broadcastGameUpdate (checkGameEnd (withBar game1)).1).1.teamA.players.length = 0 ∧
      (broadcastGameUpdate (checkGameEnd (withBar game1)).1).1.teamB.players.length = 0 then
    ({ s with activeGames := mdel s.activeGames gameId },
      (broadcastGameUpdate (checkGameEnd (withBar game1)).1).2)
  else
    ({ s with
        activeGames :=
          mset s.activeGames gameId
            (broadcastGameUpdate (checkGameEnd (withBar game1)).1).1 },
      (broadcastGameUpdate (checkGameEnd (withBar game1)).1).2)

/-- Body of the `game:click` handler once the session has been found and is
active: identify the clicker's side (error if on neither), bump that player's
counter and the side's aggregate by `CLICK_POWER`, then `clickApply`. -/
def gameClickCore (s : GameServerState) (pid gameId : String) (game : GameState) :
    GameServerState × List GEvt :=
  if game.teamA.players.any (fun p => p.id == pid) = true then
    clickApply s gameId
      { game with
        teamA := { game.teamA with
          players := bumpClick game.teamA.players pid,
          totalClicks := game.teamA.totalClicks + CLICK_POWER.toNat } }
  else if game.teamB.players.any (fun p => p.id == pid) = true then
    clickApply s gameId
      { game with
        teamB := { game.teamB with
          players := bumpClick game.teamB.players pid,
          totalClicks := game.teamB.totalClicks + CLICK_POWER.toNat } }
  else
    (s, [GEvt.gameError pid "Player not found in game"])

/-- `game:click` socket handler. -/
def gameClick (s : GameServerState) (pid : String) :
    GameServerState × List GEvt :=
  match mget s.playerToGame pid with
  | none => (s, [GEvt.gameError pid "Not in a game"])
  | some gameId =>
    match mget s.activeGames gameId with
    | none => (s, [GEvt.gameError pid "Game not found"])
    | some game =>
      if game.status = GameStatus.countdown then
        (s, [GEvt.gameError pid "Game has not started yet"])
      else if game.status ≠ GameStatus.active then
        (s, [GEvt.gameError pid "Game is not active"])
      else gameClickCore s pid gameId game

/-- Vote recording step of the `game:restart` handler: add the voter to their
side's vote set (players on neither side fall into the B branch, mirroring
the source's `else`). -/
def voteAdded (game : GameState) (pid : String) : GameState :=
  if game.teamA.players.any (fun p => p.id == pid) = true then
    { game with restartVotesA := addVote game.restartVotesA pid }
  else
    { game with restartVotesB := addVote game.restartVotesB pid }

/-- Body of the `game:restart` handler once the session has been found, is
finished, and has two non-empty sides: record the vote, test whether every
current member of both sides has voted (sizes taken after the vote is added,
before the broadcast prunes), broadcast, and restart when both sides voted
unanimously. -/
def gameRestartCore (s : GameServerState) (pid gameId : String)
    (game : GameState) : GameServerState × List GEvt :=
  if (voteAdded game pid).restartVotesA.length
        = (voteAdded game pid).teamA.players.length ∧
      (voteAdded game pid).restartVotesB.length
        = (voteAdded game pid).teamB.players.length then
    ({ s with
        activeGames :=
          mset (mset s.activeGames gameId
              (broadcastGameUpdate (voteAdded game pid)).1) gameId
            (restartGame s.restartLocks
              (broadcastGameUpdate (voteAdded game pid)).1).2.1,
        restartLocks :=
          (restartGame s.restartLocks
            (broadcastGameUpdate (voteAdded game pid)).1).1 },
      (broadcastGameUpdate (voteAdded game pid)).2
        ++ (restartGame s.restartLocks
            (broadcastGameUpdate (voteAdded game pid)).1).2.2)
  else
    ({ s with
        activeGames :=
          mset s.activeGames gameId
            (broadcastGameUpdate (voteAdded game pid)).1 },
      (broadcastGameUpdate (voteAdded game pid)).2)

/-- `game:restart` socket handler. -/
def gameRestart (s : GameServerState) (pid : String) :
    GameServerState × List GEvt :=
  match mget s.playerToGame pid with
  | none => (s, [GEvt.gameError pid "Not in a game"])
  | some gameId =>
    match mget s.activeGames gameId with
    | none => (s, [GEvt.gameError pid "Game not found"])
    | some game =>
      if game.status ≠ GameStatus.finished then
        (s, [GEvt.gameError pid "Game not finished yet"])
      else if game.teamA.players.length = 0 ∨ game.teamB.players.length = 0 then
        (s, [GEvt.gameError pid "Cannot restart: a team is empty"])
      else gameRestartCore s pid gameId game

/-- Removal step of `game:leave` / game-side `disconnect`: filter the player
out of both sides. -/
def removeFromGame (game : GameState) (pid : String) : GameState :=
  { game with
    teamA := { game.teamA with
      players := game.teamA.players.filter (fun p => !(p.id == pid)) },
    teamB := { game.teamB with
      players := game.teamB.players.filter (fun p => !(p.id == pid)) } }

/-- Shared body of `game:leave` and the game-side `disconnect` handler:
unindex the player, filter them out of both sides, then either destroy the
session (both sides empty) or broadcast. -/
def gameRemovePlayer (s : GameServerState) (pid gameId : String)
    (game : GameState) : GameServerState × List GEvt :=
  if (removeFromGame game pid).teamA.players.length = 0 ∧
      (removeFromGame game pid).teamB.players.length = 0 then
    ({ s with playerToGame := mdel s.playerToGame pid,
              activeGames := mdel s.activeGames gameId }, [])
  else
    ({ s with playerToGame := mdel s.playerToGame pid,
              activeGames :=
                mset s.activeGames gameId
                  (broadcastGameUpdate (removeFromGame game pid)).1 },
      (broadcastGameUpdate (removeFromGame game pid)).2)

/-- `game:leave` socket handler (silent when the player is not in a game). -/
def gameLeave (s : GameServerState) (pid : String) :
    GameServerState × List GEvt :=
  match mget s.playerToGame pid with
  | none => (s, [])
  | some gameId =>
    match mget s.activeGames gameId with
    | none => (s, [])
    | some game =>
      ((gameRemovePlayer s pid gameId game).1,
        (gameRemovePlayer s pid gameId game).2 ++ [GEvt.gameLeft pid gameId])

/-- Game-side `disconnect` handler: identical to `game:leave` except that no
`game:left` acknowledgement is sent. -/
def gameDisconnect (s : GameServerState) (pid : String) :
    GameServerState × List GEvt :=
  match mget s.playerToGame pid with
  | none => (s, [])
  | some gameId =>
    match mget s.activeGames gameId with
    | none => (s, [])
    | some game => gameRemovePlayer s pid gameId game

/-! ## Team registry and matchmaking queue (team.handler.ts) -/

/-- `MAX_TEAM_SIZE`. -/
def MAX_TEAM_SIZE : Nat := 5

/-- Messages a team handler emits, in emission order. -/
inductive TEvt where
  | teamError (pid msg : String)
  | teamCreated (pid teamId : String)
  | teamJoined (pid teamId : String)
  | playerJoined (teamId pid pname : String)
  | playerLeft (teamId pid : String)
  | leaderChanged (teamId leaderId : String)
  | teamLeft (pid teamId : String)
  | matchQueued (teamId : String) (size : Nat)
  | matchCancelled (teamId reason : String)
  | matchError (pid msg : String)
deriving Repr, DecidableEq

/-- Integer-keyed map get (queue buckets are keyed by team size). -/
def qget {α : Type} (m : List (Nat × α)) (k : Nat) : Option α :=
  match m with
  | [] => none
  | (k', v) :: rest => if k' = k then some v else qget rest k

/-- Integer-keyed map set. -/
def qset {α : Type} (m : List (Nat × α)) (k : Nat) (v : α) : List (Nat × α) :=
  (k, v) :: m.filter (fun kv => !(kv.1 == k))

/-- Integer-keyed map delete. -/
def qdel {α : Type} (m : List (Nat × α)) (k : Nat) : List (Nat × α) :=
  m.filter (fun kv => !(kv.1 == k))

/-- Module-level team-handler state: `teams`, `playerTeam`, `teamQueues`.
The queue buckets hold team ids; the JS lists hold references to the very
objects stored in `teams`, so the id is the faithful key. -/
structure TeamServerState where
  teams : List (String × Team)
  playerTeam : List (String × String)
  teamQueues : List (Nat × List String)
deriving Repr, DecidableEq

/-- `dequeueTeam(io, team, reason)` acting on the team value and the queue
map: no-op unless queued; removes the team from its size bucket (deleting the
bucket when emptied), clears `inQueue`, and broadcasts the cancellation. -/
def dequeueTeamPure (queues : List (Nat × List String)) (team : Team)
    (reason : String) :
    List (Nat × List String) × Team × List TEvt :=
  if ¬team.inQueue then (queues, team, [])
  else
    let size := team.participants.length
    let queues1 :=
      match qget queues size with
      | none => queues
      | some list =>
        if team.id ∈ list then
          let l' := list.erase team.id
          if l' = [] then qdel queues size else qset queues size l'
        else queues
    (queues1, { team with inQueue := false },
      [TEvt.matchCancelled team.id reason])

/-- `attemptMatch(io, size)`: with fewer than two queued teams in the bucket,
do nothing; otherwise shift the two front (earliest-enqueued) teams out,
delete the bucket if that emptied it, clear both teams' queued flags, and
hand the pair to the session factory (`createGame`).  The matched pair of
team ids is returned for the bridge to the game model. -/
def attemptMatch (s : TeamServerState) (size : Nat) :
    TeamServerState × Option (String × String) :=
  match qget s.teamQueues size with
  | none => (s, none)
  | some list =>
    match list with
    | [] => (s, none)
    | [_] => (s, none)
    | a :: b :: rest =>
      let queues1 :=
        if rest = [] then qdel s.teamQueues size else qset s.teamQueues size rest
      let teams1 := mupd (mupd s.teams a (fun t => { t with inQueue := false }))
        b (fun t => { t with inQueue := false })
      ({ s with teamQueues := queues1, teams := teams1 }, some (a, b))

/-- `enqueueTeam(io, team)`: create the bucket if missing; push the team only
if it is not already present (idempotence), setting its queued flag and
broadcasting `team:match:queued`; then always attempt a match for the size. -/
def enqueueTeam (s : TeamServerState) (tid : String) :
    TeamServerState × List TEvt × Option (String × String) :=
  match mget s.teams tid with
  | none => (s, [], none)          -- call sites pass a team from the registry
  | some team =>
    let size := team.participants.length
    let list := (qget s.teamQueues size).getD []
    if tid ∈ list then
      ((attemptMatch s size).1, [], (attemptMatch s size).2)
    else
      let s1 :=
        { s with
          teamQueues := qset s.teamQueues size (list ++ [tid]),
          teams := mupd s.teams tid (fun t => { t with inQueue := true }) }
      ((attemptMatch s1 size).1, [TEvt.matchQueued tid size],
        (attemptMatch s1 size).2)

/-- `team:create` socket handler.  `newId` stands for the fresh invite code
returned by `generateInviteCode()`. -/
def teamCreate (s : TeamServerState) (pid pname tname newId : String) :
    TeamServerState × List TEvt :=
  if (mget s.playerTeam pid).isSome then
    (s, [TEvt.teamError pid "Already in a team"])
  else
    let team : Team :=
      { id := newId, name := tname, participants := [⟨pid, pname⟩],
        leaderId := pid, inQueue := false }
    ({ s with teams := mset s.teams newId team,
              playerTeam := mset s.playerTeam pid newId },
      [TEvt.teamCreated pid newId])

/-- `dequeueTeam` call guarded by the queued flag, as at each call site. -/
def dequeueIfQueued (queues : List (Nat × List String)) (t : Team)
    (reason : String) : List (Nat × List String) × Team × List TEvt :=
  if t.inQueue then dequeueTeamPure queues t reason else (queues, t, [])

/-- `team:join` socket handler. -/
def teamJoin (s : TeamServerState) (pid pname code : String) :
    TeamServerState × List TEvt :=
  if (mget s.playerTeam pid).isSome then
    (s, [TEvt.teamError pid "Already in a team"])
  else
    match mget s.teams code with
    | none => (s, [TEvt.teamError pid "Team not found"])
    | some team =>
      if team.participants.length ≥ MAX_TEAM_SIZE then
        (s, [TEvt.teamError pid "Team full"])
      else
        ({ s with
            teams :=
              mset s.teams code
                { (dequeueIfQueued s.teamQueues team "Player joined").2.1 with
                  participants :=
                    (dequeueIfQueued s.teamQueues team "Player joined").2.1.participants
                      ++ [⟨pid, pname⟩] },
            playerTeam := mset s.playerTeam pid code,
            teamQueues := (dequeueIfQueued s.teamQueues team "Player joined").1 },
          (dequeueIfQueued s.teamQueues team "Player joined").2.2
            ++ [TEvt.playerJoined code pid pname, TEvt.teamJoined pid code])

/-- Removal step of `team:leave`: delete the (first) participant with the
leaver's id and notify the team, if such a participant exists. -/
def removeDeparting (teamId : String) (t : Team) (pid : String) :
    Team × List TEvt :=
  if t.participants.any (fun p => p.id == pid) = true then
    ({ t with participants := t.participants.eraseP (fun p => p.id == pid) },
      [TEvt.playerLeft teamId pid])
  else (t, [])

/-- Leader-succession step shared by `team:leave` and `disconnect`: if the
departed player was leader and the team is non-empty, promote the first
remaining participant. -/
def promoteIfNeeded (teamId : String) (t : Team) (pid : String) :
    Team × List TEvt :=
  if t.leaderId = pid ∧ t.participants.length > 0 then
    ({ t with leaderId := (t.participants.headD ⟨"", ""⟩).id },
      [TEvt.leaderChanged teamId (t.participants.headD ⟨"", ""⟩).id])
  else (t, [])

/-- `team:leave` socket handler: unindex, dequeue if queued, remove the
departing participant, promote a new leader if needed, destroy the team when
emptied, acknowledge with `team:left`. -/
def teamLeave (s : TeamServerState) (pid : String) :
    TeamServerState × List TEvt :=
  match mget s.playerTeam pid with
  | none => (s, [])
  | some teamId =>
    match mget s.teams teamId with
    | none => ({ s with playerTeam := mdel s.playerTeam pid }, [])
    | some team =>
      ({ s with
          teams :=
            if (promoteIfNeeded teamId
                (removeDeparting teamId
                  (dequeueIfQueued s.teamQueues team "Player left").2.1 pid).1
                pid).1.participants.length = 0 then
              mdel s.teams teamId
            else
              mset s.teams teamId
                (promoteIfNeeded teamId
                  (removeDeparting teamId
                    (dequeueIfQueued s.teamQueues team "Player left").2.1 pid).1
                  pid).1,
          playerTeam := mdel s.playerTeam pid,
          teamQueues := (dequeueIfQueued s.teamQueues team "Player left").1 },
        (dequeueIfQueued s.teamQueues team "Player left").2.2
          ++ (removeDeparting teamId
              (dequeueIfQueued s.teamQueues team "Player left").2.1 pid).2
          ++ (promoteIfNeeded teamId
              (removeDeparting teamId
                (dequeueIfQueued s.teamQueues team "Player left").2.1 pid).1
              pid).2
          ++ [TEvt.teamLeft pid teamId])

/-- Removal step of the team-side `disconnect` handler: delete every
participant with the departed id. -/
def removeAllWithId (t : Team) (pid : String) : Team :=
  { t with participants := t.participants.filter (fun p => !(p.id == pid)) }

/-- Team-side `disconnect` handler: like `team:leave`, but the removal
deletes every participant with the id, the `team:playerLeft` notification is
sent unconditionally, and no acknowledgement goes to the departed player. -/
def teamDisconnect (s : TeamServerState) (pid : String) :
    TeamServerState × List TEvt :=
  match mget s.playerTeam pid with
  | none => (s, [])
  | some teamId =>
    match mget s.teams teamId with
    | none => ({ s with playerTeam := mdel s.playerTeam pid }, [])
    | some team =>
      ({ s with
          teams :=
            if (promoteIfNeeded teamId
                (removeAllWithId
                  (dequeueIfQueued s.teamQueues team "Disconnect").2.1 pid)
                pid).1.participants.length = 0 then
              mdel s.teams teamId
            else
              mset s.teams teamId
                (promoteIfNeeded teamId
                  (removeAllWithId
                    (dequeueIfQueued s.teamQueues team "Disconnect").2.1 pid)
                  pid).1,
          playerTeam := mdel s.playerTeam pid,
          teamQueues := (dequeueIfQueued s.teamQueues team "Disconnect").1 },
        (dequeueIfQueued s.teamQueues team "Disconnect").2.2
          ++ (promoteIfNeeded teamId
              (removeAllWithId
                (dequeueIfQueued s.teamQueues team "Disconnect").2.1 pid)
              pid).2
          ++ [TEvt.playerLeft teamId pid])

/-- `team:match:start` socket handler: leader-only, not-already-queued,
size-capped enqueue. -/
def teamMatchStart (s : TeamServerState) (pid : String) :
    TeamServerState × List TEvt :=
  match mget s.playerTeam pid with
  | none => (s, [TEvt.matchError pid "Not in a team"])
  | some teamId =>
    match mget s.teams teamId with
    | none => (s, [TEvt.matchError pid "Team missing"])
    | some team =>
      if team.leaderId ≠ pid then
        (s, [TEvt.matchError pid "Only leader can start"])
      else if team.inQueue then
        (s, [TEvt.matchError pid "Already queued"])
      else if team.participants.length > MAX_TEAM_SIZE then
        (s, [TEvt.matchError pid "Team too large"])
      else
        ((enqueueTeam s teamId).1, (enqueueTeam s teamId).2.1)

/-- `team:match:cancel` socket handler. -/
def teamMatchCancel (s : TeamServerState) (pid : String) :
    TeamServerState × List TEvt :=
  match mget s.playerTeam pid with
  | none => (s, [])
  | some teamId =>
    match mget s.teams teamId with
    | none => (s, [])
    | some team =>
      if team.leaderId ≠ pid then
        (s, [TEvt.matchError pid "Only leader can cancel"])
      else if ¬team.inQueue then
        (s, [TEvt.matchError pid "Not queued"])
      else
        let r := dequeueTeamPure s.teamQueues team "Leader cancelled"
        ({ s with teamQueues := r.1,
                  teams := mset s.teams teamId r.2.1 }, r.2.2)

/-- One inbound team-registry operation. -/
inductive TeamOp where
  | create (pid pname tname newId : String)
  | join (pid pname code : String)
  | leave (pid : String)
  | disconnect (pid : String)
  | matchStart (pid : String)
  | matchCancel (pid : String)
deriving Repr, DecidableEq

/-- Apply one operation to the registry state (dropping the emissions). -/
def applyTeamOp (s : TeamServerState) (op : TeamOp) : TeamServerState :=
  match op with
  | TeamOp.create pid pname tname newId => (teamCreate s pid pname tname newId).1
  | TeamOp.join pid pname code => (teamJoin s pid pname code).1
  | TeamOp.leave pid => (teamLeave s pid).1
  | TeamOp.disconnect pid => (teamDisconnect s pid).1
  | TeamOp.matchStart pid => (teamMatchStart s pid).1
  | TeamOp.matchCancel pid => (teamMatchCancel s pid).1

/-! ## Helper lemmas -/

theorem emptySideCheck_fields (g : GameState) :
    (emptySideCheck g).id = g.id ∧
    (emptySideCheck g).teamA = g.teamA ∧
    (emptySideCheck g).teamB = g.teamB ∧
    (emptySideCheck g).barPosition = g.barPosition ∧
    (emptySideCheck g).countdownRemaining = g.countdownRemaining ∧
    (emptySideCheck g).restartVotesA = g.restartVotesA ∧
    (emptySideCheck g).restartVotesB = g.restartVotesB := by
  unfold emptySideCheck
  split
  · split
    · simp
    · split <;> simp
  · simp

/-! ## C6: initial state produced by the session factory -/

/-- C6: every session produced by the factory (`createGame`) starts with
`barPosition = 0`, countdown status, `countdownRemaining = COUNTDOWN_SECONDS`,
and both restart-vote sets empty; that same session is what gets registered
under its id. -/
theorem createGame_initial_state (s : GameServerState) (gameId : String)
    (tA tB : Team) :
    ((createGame s gameId tA tB).2.1.barPosition = 0 ∧
      (createGame s gameId tA tB).2.1.status = GameStatus.countdown ∧
      (createGame s gameId tA tB).2.1.countdownRemaining
        = some COUNTDOWN_SECONDS ∧
      (createGame s gameId tA tB).2.1.restartVotesA = [] ∧
      (createGame s gameId tA tB).2.1.restartVotesB = []) ∧
    mget (createGame s gameId tA tB).1.activeGames gameId
      = some (createGame s gameId tA tB).2.1 := by
  constructor
  · simp [createGame, initialGame, startCountdown, broadcastGameUpdate,
      pruneVotes, emptySideCheck]
  · simp only [createGame]
    exact mget_mset_self _ _ _

/-! ## C8: broadcasts prune stale votes before serializing -/

/-- C8: any `game:update` payload emitted by `broadcastGameUpdate` only
carries restart votes of ids still present in the corresponding side's
player list (pruning happens before serialization). -/
theorem broadcast_prunes_stale_votes (g : GameState) (pid : String)
    (data : GamePayload) (b : Bool)
    (h : GEvt.gameUpdate pid data b ∈ (broadcastGameUpdate g).2) :
    (∀ i ∈ data.restartVotesA,
      data.teamA.players.any (fun p => p.id == i) = true) ∧
    (∀ i ∈ data.restartVotesB,
      data.teamB.players.any (fun p => p.id == i) = true) := by
  have hdata : data = payloadOf (emptySideCheck (pruneVotes g)) := by
    simp only [broadcastGameUpdate, List.mem_append, List.mem_map] at h
    rcases h with ⟨p, _, heq⟩ | ⟨p, _, heq⟩ <;>
      · injection heq with h1 h2 h3
        exact h2.symm
  subst hdata
  have hA := (emptySideCheck_fields (pruneVotes g)).2.1
  have hvA := (emptySideCheck_fields (pruneVotes g)).2.2.2.2.2.1
  have hB := (emptySideCheck_fields (pruneVotes g)).2.2.1
  have hvB := (emptySideCheck_fields (pruneVotes g)).2.2.2.2.2.2
  constructor
  · intro i hi
    simp only [payloadOf] at hi ⊢
    rw [hvA] at hi
    rw [hA]
    have hi' : i ∈ List.filter
        (fun j => g.teamA.players.any (fun p => p.id == j)) g.restartVotesA := hi
    simpa using List.of_mem_filter hi'
  · intro i hi
    simp only [payloadOf] at hi ⊢
    rw [hvB] at hi
    rw [hB]
    have hi' : i ∈ List.filter
        (fun j => g.teamB.players.any (fun p => p.id == j)) g.restartVotesB := hi
    simpa using List.of_mem_filter hi'

/-- A finished 1v1 session carrying a stale vote from a departed player
("ghost"), used to exercise the pruning theorem. -/
def staleVoteGame : GameState :=
  { id := "g1",
    teamA := { teamId := "t1", name := "red",
               players := [⟨"a1", "A", 0⟩], leaderId := "a1",
               totalClicks := 0 },
    teamB := { teamId := "t2", name := "blue",
               players := [⟨"b1", "B", 0⟩], leaderId := "b1",
               totalClicks := 0 },
    status := GameStatus.finished, winner := some Winner.teamA,
    barPosition := -25, countdownRemaining := none,
    restartVotesA := ["ghost", "a1"], restartVotesB := [] }

/-- Witness for C8 at a concrete broadcast with a stale vote. -/
theorem broadcast_prunes_stale_votes_witness :
    (∀ i ∈ (payloadOf (emptySideCheck (pruneVotes staleVoteGame))).restartVotesA,
      (payloadOf (emptySideCheck (pruneVotes staleVoteGame))).teamA.players.any
        (fun p => p.id == i) = true) ∧
    (∀ i ∈ (payloadOf (emptySideCheck (pruneVotes staleVoteGame))).restartVotesB,
      (payloadOf (emptySideCheck (pruneVotes staleVoteGame))).teamB.players.any
        (fun p => p.id == i) = true) :=
  broadcast_prunes_stale_votes staleVoteGame "a1"
    (payloadOf (emptySideCheck (pruneVotes staleVoteGame))) true (by decide)

/-! ## Helper lemmas about broadcasting and the threshold check -/

theorem pruneVotes_teamA (g : GameState) : (pruneVotes g).teamA = g.teamA := rfl

theorem pruneVotes_teamB (g : GameState) : (pruneVotes g).teamB = g.teamB := rfl

theorem pruneVotes_status (g : GameState) :
    (pruneVotes g).status = g.status := rfl

theorem pruneVotes_winner (g : GameState) :
    (pruneVotes g).winner = g.winner := rfl

theorem pruneVotes_bar (g : GameState) :
    (pruneVotes g).barPosition = g.barPosition := rfl

theorem checkGameEnd_teamA (g : GameState) :
    (checkGameEnd g).1.teamA = g.teamA := by
  unfold checkGameEnd
  split
  · rfl
  · split <;> rfl

theorem checkGameEnd_teamB (g : GameState) :
    (checkGameEnd g).1.teamB = g.teamB := by
  unfold checkGameEnd
  split
  · rfl
  · split <;> rfl

theorem checkGameEnd_bar (g : GameState) :
    (checkGameEnd g).1.barPosition = g.barPosition := by
  unfold checkGameEnd
  split
  · rfl
  · split <;> rfl

theorem length_bumpClick (ps : List GamePlayer) (pid : String) :
    (bumpClick ps pid).length = ps.length := by
  induction ps with
  | nil => rfl
  | cons p rest ih =>
    unfold bumpClick
    split
    · simp
    · simp [ih]

theorem emptySideCheck_of_nonempty (g : GameState)
    (hA : g.teamA.players ≠ []) (hB : g.teamB.players ≠ []) :
    emptySideCheck g = g := by
  have hA' : g.teamA.players.length ≠ 0 :=
    fun h => hA (List.length_eq_zero.mp h)
  have hB' : g.teamB.players.length ≠ 0 :=
    fun h => hB (List.length_eq_zero.mp h)
  unfold emptySideCheck
  split
  · split
    · next hc => exact absurd hc.1 hA'
    · split
      · next hc => exact absurd hc.1 hB'
      · rfl
  · rfl

theorem broadcast_fst_of_nonempty (g : GameState)
    (hA : g.teamA.players ≠ []) (hB : g.teamB.players ≠ []) :
    (broadcastGameUpdate g).1 = pruneVotes g := by
  unfold broadcastGameUpdate
  exact emptySideCheck_of_nonempty (pruneVotes g) hA hB

/-- Clamp bound and win detection for the state produced by the threshold
check followed by pruning. -/
theorem post_click_props (g2 : GameState)
    (hbar : g2.barPosition
      = calculateBarPosition g2.teamA.totalClicks g2.teamB.totalClicks) :
    (pruneVotes (checkGameEnd g2).1).barPosition
      = calculateBarPosition (pruneVotes (checkGameEnd g2).1).teamA.totalClicks
          (pruneVotes (checkGameEnd g2).1).teamB.totalClicks ∧
    ((pruneVotes (checkGameEnd g2).1).barPosition = -WIN_THRESHOLD →
      (pruneVotes (checkGameEnd g2).1).status = GameStatus.finished ∧
      (pruneVotes (checkGameEnd g2).1).winner = some Winner.teamA) ∧
    ((pruneVotes (checkGameEnd g2).1).barPosition = WIN_THRESHOLD →
      (pruneVotes (checkGameEnd g2).1).status = GameStatus.finished ∧
      (pruneVotes (checkGameEnd g2).1).winner = some Winner.teamB) := by
  by_cases hle : g2.barPosition ≤ -WIN_THRESHOLD
  · unfold checkGameEnd
    rw [if_pos hle]
    refine ⟨hbar, fun _ => ⟨rfl, rfl⟩, fun h25 => ?_⟩
    rw [pruneVotes_bar] at h25
    simp only [WIN_THRESHOLD] at hle h25
    omega
  · by_cases hge : g2.barPosition ≥ WIN_THRESHOLD
    · unfold checkGameEnd
      rw [if_neg hle, if_pos hge]
      refine ⟨hbar, fun h25 => ?_, fun _ => ⟨rfl, rfl⟩⟩
      rw [pruneVotes_bar] at h25
      simp only [WIN_THRESHOLD] at hle h25
      omega
    · unfold checkGameEnd
      rw [if_neg hle, if_neg hge]
      refine ⟨hbar, fun h25 => ?_, fun h25 => ?_⟩
      · rw [pruneVotes_bar] at h25
        simp only [WIN_THRESHOLD] at hle h25
        omega
      · rw [pruneVotes_bar] at h25
        simp only [WIN_THRESHOLD] at hge h25
        omega


/-! ## C1: clicks recompute the clamped bar and detect threshold wins -/

/-- Spec of the shared click tail: the stored session's bar equals the clamped
total difference and threshold hits set status/winner. -/
theorem clickApply_spec (s : GameServerState) (gid : String) (game1 : GameState)
    (hA : game1.teamA.players ≠ []) (hB : game1.teamB.players ≠ []) :
    ∃ g', mget (clickApply s gid game1).1.activeGames gid = some g' ∧
      g'.barPosition
        = calculateBarPosition g'.teamA.totalClicks g'.teamB.totalClicks ∧
      (g'.barPosition = -WIN_THRESHOLD →
        g'.status = GameStatus.finished ∧ g'.winner = some Winner.teamA) ∧
      (g'.barPosition = WIN_THRESHOLD →
        g'.status = GameStatus.finished ∧ g'.winner = some Winner.teamB) := by
  have hA3 : (checkGameEnd (withBar game1)).1.teamA.players ≠ [] := by
    rw [checkGameEnd_teamA]; exact hA
  have hB3 : (checkGameEnd (withBar game1)).1.teamB.players ≠ [] := by
    rw [checkGameEnd_teamB]; exact hB
  have hbcast := broadcast_fst_of_nonempty (checkGameEnd (withBar game1)).1 hA3 hB3
  have hcond : ¬((checkGameEnd (withBar game1)).2 = true ∧
      (broadcastGameUpdate (checkGameEnd (withBar game1)).1).1.teamA.players.length = 0 ∧
      (broadcastGameUpdate (checkGameEnd (withBar game1)).1).1.teamB.players.length = 0) := by
    rintro ⟨_, hc, _⟩
    rw [hbcast, pruneVotes_teamA, checkGameEnd_teamA] at hc
    exact hA (List.length_eq_zero.mp hc)
  have hprops := post_click_props (withBar game1) rfl
  refine ⟨pruneVotes (checkGameEnd (withBar game1)).1, ?_,
    hprops.1, hprops.2.1, hprops.2.2⟩
  unfold clickApply
  rw [if_neg hcond, hbcast]
  exact mget_mset_self _ _ _

/-- C1 at the level of `gameClickCore` (session found, active, clicker on
one of the sides). -/
theorem gameClickCore_spec (s : GameServerState) (pid gid : String)
    (g : GameState)
    (h4 : g.teamA.players ≠ []) (h5 : g.teamB.players ≠ [])
    (h6 : g.teamA.players.any (fun p => p.id == pid) = true ∨
          g.teamB.players.any (fun p => p.id == pid) = true) :
    ∃ g', mget (gameClickCore s pid gid g).1.activeGames gid = some g' ∧
      g'.barPosition
        = calculateBarPosition g'.teamA.totalClicks g'.teamB.totalClicks ∧
      (g'.barPosition = -WIN_THRESHOLD →
        g'.status = GameStatus.finished ∧ g'.winner = some Winner.teamA) ∧
      (g'.barPosition = WIN_THRESHOLD →
        g'.status = GameStatus.finished ∧ g'.winner = some Winner.teamB) := by
  by_cases honA : g.teamA.players.any (fun p => p.id == pid) = true
  · have hbump : bumpClick g.teamA.players pid ≠ [] := by
      intro h
      apply h4
      have hlen := congrArg List.length h
      rw [length_bumpClick] at hlen
      exact List.length_eq_zero.mp hlen
    unfold gameClickCore
    rw [if_pos honA]
    exact clickApply_spec s gid _ hbump h5
  · have honB : g.teamB.players.any (fun p => p.id == pid) = true := by
      rcases h6 with h | h
      · exact absurd h honA
      · exact h
    have hbump : bumpClick g.teamB.players pid ≠ [] := by
      intro h
      apply h5
      have hlen := congrArg List.length h
      rw [length_bumpClick] at hlen
      exact List.length_eq_zero.mp hlen
    unfold gameClickCore
    rw [if_neg honA, if_pos honB]
    exact clickApply_spec s gid _ h4 hbump

/-- C1: a `game:click` processed while the session is active (with both sides
still populated, as in any reachable active session) leaves the stored
session with `barPosition = clamp(teamB.totalClicks - teamA.totalClicks,
-WIN_THRESHOLD, WIN_THRESHOLD)`; if the bar reached `-WIN_THRESHOLD` the
session is finished with winner `teamA`, and if it reached `WIN_THRESHOLD`
it is finished with winner `teamB`. -/
theorem game_click_bar_and_win (s : GameServerState) (pid gid : String)
    (g : GameState)
    (h1 : mget s.playerToGame pid = some gid)
    (h2 : mget s.activeGames gid = some g)
    (h3 : g.status = GameStatus.active)
    (h4 : g.teamA.players ≠ []) (h5 : g.teamB.players ≠ [])
    (h6 : g.teamA.players.any (fun p => p.id == pid) = true ∨
          g.teamB.players.any (fun p => p.id == pid) = true) :
    ∃ g', mget (gameClick s pid).1.activeGames gid = some g' ∧
      g'.barPosition
        = calculateBarPosition g'.teamA.totalClicks g'.teamB.totalClicks ∧
      (g'.barPosition = -WIN_THRESHOLD →
        g'.status = GameStatus.finished ∧ g'.winner = some Winner.teamA) ∧
      (g'.barPosition = WIN_THRESHOLD →
        g'.status = GameStatus.finished ∧ g'.winner = some Winner.teamB) := by
  have hspec := gameClickCore_spec s pid gid g h4 h5 h6
  unfold gameClick
  rw [h1]
  dsimp only
  rw [h2]
  dsimp only
  rw [h3]
  rw [if_neg (show ¬(GameStatus.active = GameStatus.countdown) by decide)]
  rw [if_neg (show ¬(GameStatus.active ≠ GameStatus.active) by decide)]
  exact hspec

/-- Concrete active 1v1 session at 24 clicks for side A: one more A-click
reaches the threshold. -/
def clickGame : GameState :=
  { id := "g1",
    teamA := { teamId := "t1", name := "red",
               players := [⟨"a1", "A", 24⟩], leaderId := "a1",
               totalClicks := 24 },
    teamB := { teamId := "t2", name := "blue",
               players := [⟨"b1", "B", 0⟩], leaderId := "b1",
               totalClicks := 0 },
    status := GameStatus.active, winner := none,
    barPosition := -24, countdownRemaining := none,
    restartVotesA := [], restartVotesB := [] }

/-- Server state holding `clickGame`. -/
def clickServer : GameServerState :=
  { activeGames := [("g1", clickGame)],
    playerToGame := [("a1", "g1"), ("b1", "g1")],
    restartLocks := [] }

/-- Witness for C1: player `a1` clicks in `clickServer`. -/
theorem game_click_bar_and_win_witness :
    ∃ g', mget (gameClick clickServer "a1").1.activeGames "g1" = some g' ∧
      g'.barPosition
        = calculateBarPosition g'.teamA.totalClicks g'.teamB.totalClicks ∧
      (g'.barPosition = -WIN_THRESHOLD →
        g'.status = GameStatus.finished ∧ g'.winner = some Winner.teamA) ∧
      (g'.barPosition = WIN_THRESHOLD →
        g'.status = GameStatus.finished ∧ g'.winner = some Winner.teamB) :=
  game_click_bar_and_win clickServer "a1" "g1" clickGame (by decide) (by decide)
    (by decide) (by decide) (by decide) (Or.inl (by decide))

/-! ## C9: precondition-violating requests change no state -/

/-- C9: a `game:click` while the session is not active, and a `game:restart`
while it is not finished, each leave the entire server state unchanged and
emit exactly one `game:error` event to the requesting player. -/
theorem precondition_errors_change_nothing (s : GameServerState)
    (pid gid : String) (g : GameState)
    (h1 : mget s.playerToGame pid = some gid)
    (h2 : mget s.activeGames gid = some g) :
    (g.status ≠ GameStatus.active →
      (gameClick s pid).1 = s ∧
      ∃ m, (gameClick s pid).2 = [GEvt.gameError pid m]) ∧
    (g.status ≠ GameStatus.finished →
      (gameRestart s pid).1 = s ∧
      ∃ m, (gameRestart s pid).2 = [GEvt.gameError pid m]) := by
  constructor
  · intro hst
    unfold gameClick
    rw [h1]
    dsimp only
    rw [h2]
    dsimp only
    cases hg : g.status
    · rw [if_pos rfl]
      exact ⟨rfl, "Game has not started yet", rfl⟩
    · exact absurd hg hst
    · rw [if_neg (show ¬(GameStatus.finished = GameStatus.countdown) by decide)]
      rw [if_pos (show GameStatus.finished ≠ GameStatus.active by decide)]
      exact ⟨rfl, "Game is not active", rfl⟩
  · intro hst
    unfold gameRestart
    rw [h1]
    dsimp only
    rw [h2]
    dsimp only
    rw [if_pos hst]
    exact ⟨rfl, "Game not finished yet", rfl⟩

/-- A 1v1 session still in countdown: clicking and restart-voting are both
precondition violations there. -/
def countdownGame : GameState :=
  { id := "g1",
    teamA := { teamId := "t1", name := "red",
               players := [⟨"a1", "A", 0⟩], leaderId := "a1",
               totalClicks := 0 },
    teamB := { teamId := "t2", name := "blue",
               players := [⟨"b1", "B", 0⟩], leaderId := "b1",
               totalClicks := 0 },
    status := GameStatus.countdown, winner := none,
    barPosition := 0, countdownRemaining := some 3,
    restartVotesA := [], restartVotesB := [] }

/-- Server state holding `countdownGame`. -/
def countdownServer : GameServerState :=
  { activeGames := [("g1", countdownGame)],
    playerToGame := [("a1", "g1"), ("b1", "g1")],
    restartLocks := [] }

/-- Witness for C9 in a countdown session. -/
theorem precondition_errors_change_nothing_witness :
    ((gameClick countdownServer "a1").1 = countdownServer ∧
      ∃ m, (gameClick countdownServer "a1").2 = [GEvt.gameError "a1" m]) ∧
    ((gameRestart countdownServer "a1").1 = countdownServer ∧
      ∃ m, (gameRestart countdownServer "a1").2 = [GEvt.gameError "a1" m]) :=
  ⟨(precondition_errors_change_nothing countdownServer "a1" "g1" countdownGame
      (by decide) (by decide)).1 (by decide),
   (precondition_errors_change_nothing countdownServer "a1" "g1" countdownGame
      (by decide) (by decide)).2 (by decide)⟩

/-! ## C7: an emptied side loses; a fully emptied session is destroyed -/

theorem mget_mdel_self {α : Type} (m : List (String × α)) (k : String) :
    mget (mdel m k) k = none := by
  induction m with
  | nil => rfl
  | cons kv rest ih =>
    obtain ⟨k', v'⟩ := kv
    by_cases h : k' = k
    · simp only [mdel, List.filter_cons] at ih ⊢
      simp [h, ih]
    · simp only [mdel, List.filter_cons] at ih ⊢
      simp [h, mget, ih]

theorem emptySideCheck_A_empty (g : GameState)
    (hst : g.status ≠ GameStatus.countdown)
    (hA : g.teamA.players.length = 0) (hB : 0 < g.teamB.players.length) :
    emptySideCheck g
      = { g with status := GameStatus.finished, winner := some Winner.teamB } := by
  unfold emptySideCheck
  rw [if_pos hst, if_pos ⟨hA, hB⟩]

theorem emptySideCheck_B_empty (g : GameState)
    (hst : g.status ≠ GameStatus.countdown)
    (hB : g.teamB.players.length = 0) (hA : 0 < g.teamA.players.length) :
    emptySideCheck g
      = { g with status := GameStatus.finished, winner := some Winner.teamA } := by
  unfold emptySideCheck
  rw [if_pos hst]
  rw [if_neg (by rintro ⟨h0, _⟩; omega)]
  rw [if_pos ⟨hB, hA⟩]

theorem gameRemovePlayer_destroys (s : GameServerState) (pid gid : String)
    (g : GameState)
    (hA : (removeFromGame g pid).teamA.players = [])
    (hB : (removeFromGame g pid).teamB.players = []) :
    mget (gameRemovePlayer s pid gid g).1.activeGames gid = none := by
  unfold gameRemovePlayer
  rw [if_pos ⟨List.length_eq_zero.mpr hA, List.length_eq_zero.mpr hB⟩]
  exact mget_mdel_self _ _

theorem gameRemovePlayer_A_empty (s : GameServerState) (pid gid : String)
    (g : GameState) (h3 : g.status ≠ GameStatus.countdown)
    (hA : (removeFromGame g pid).teamA.players = [])
    (hB : (removeFromGame g pid).teamB.players ≠ []) :
    ∃ g', mget (gameRemovePlayer s pid gid g).1.activeGames gid = some g' ∧
      g'.status = GameStatus.finished ∧ g'.winner = some Winner.teamB := by
  have hBlen : 0 < (removeFromGame g pid).teamB.players.length :=
    List.length_pos.mpr hB
  have hcond : ¬((removeFromGame g pid).teamA.players.length = 0 ∧
      (removeFromGame g pid).teamB.players.length = 0) := by
    rintro ⟨_, h0⟩
    omega
  unfold gameRemovePlayer
  rw [if_neg hcond]
  refine ⟨(broadcastGameUpdate (removeFromGame g pid)).1,
    mget_mset_self _ _ _, ?_, ?_⟩ <;>
    · rw [show (broadcastGameUpdate (removeFromGame g pid)).1
          = emptySideCheck (pruneVotes (removeFromGame g pid)) from rfl]
      rw [emptySideCheck_A_empty (pruneVotes (removeFromGame g pid)) h3
        (List.length_eq_zero.mpr hA) hBlen]

theorem gameRemovePlayer_B_empty (s : GameServerState) (pid gid : String)
    (g : GameState) (h3 : g.status ≠ GameStatus.countdown)
    (hB : (removeFromGame g pid).teamB.players = [])
    (hA : (removeFromGame g pid).teamA.players ≠ []) :
    ∃ g', mget (gameRemovePlayer s pid gid g).1.activeGames gid = some g' ∧
      g'.status = GameStatus.finished ∧ g'.winner = some Winner.teamA := by
  have hAlen : 0 < (removeFromGame g pid).teamA.players.length :=
    List.length_pos.mpr hA
  have hcond : ¬((removeFromGame g pid).teamA.players.length = 0 ∧
      (removeFromGame g pid).teamB.players.length = 0) := by
    rintro ⟨h0, _⟩
    omega
  unfold gameRemovePlayer
  rw [if_neg hcond]
  refine ⟨(broadcastGameUpdate (removeFromGame g pid)).1,
    mget_mset_self _ _ _, ?_, ?_⟩ <;>
    · rw [show (broadcastGameUpdate (removeFromGame g pid)).1
          = emptySideCheck (pruneVotes (removeFromGame g pid)) from rfl]
      rw [emptySideCheck_B_empty (pruneVotes (removeFromGame g pid)) h3
        (List.length_eq_zero.mpr hB) hAlen]

theorem gameLeave_state_eq (s : GameServerState) (pid gid : String)
    (g : GameState) (h1 : mget s.playerToGame pid = some gid)
    (h2 : mget s.activeGames gid = some g) :
    (gameLeave s pid).1 = (gameRemovePlayer s pid gid g).1 := by
  unfold gameLeave
  rw [h1]
  dsimp only
  rw [h2]

theorem gameDisconnect_state_eq (s : GameServerState) (pid gid : String)
    (g : GameState) (h1 : mget s.playerToGame pid = some gid)
    (h2 : mget s.activeGames gid = some g) :
    (gameDisconnect s pid).1 = (gameRemovePlayer s pid gid g).1 := by
  unfold gameDisconnect
  rw [h1]
  dsimp only
  rw [h2]

/-- C7: outside of countdown, a leave or disconnect that empties one side
while the other still has players finishes the session with the non-empty
side as winner; a leave or disconnect that empties both sides destroys the
session outright. -/
theorem empty_side_auto_loss (s : GameServerState) (pid gid : String)
    (g : GameState)
    (h1 : mget s.playerToGame pid = some gid)
    (h2 : mget s.activeGames gid = some g)
    (h3 : g.status ≠ GameStatus.countdown) :
    ((removeFromGame g pid).teamA.players = [] →
      (removeFromGame g pid).teamB.players ≠ [] →
      (∃ gL, mget (gameLeave s pid).1.activeGames gid = some gL ∧
        gL.status = GameStatus.finished ∧ gL.winner = some Winner.teamB) ∧
      (∃ gD, mget (gameDisconnect s pid).1.activeGames gid = some gD ∧
        gD.status = GameStatus.finished ∧ gD.winner = some Winner.teamB)) ∧
    ((removeFromGame g pid).teamB.players = [] →
      (removeFromGame g pid).teamA.players ≠ [] →
      (∃ gL, mget (gameLeave s pid).1.activeGames gid = some gL ∧
        gL.status = GameStatus.finished ∧ gL.winner = some Winner.teamA) ∧
      (∃ gD, mget (gameDisconnect s pid).1.activeGames gid = some gD ∧
        gD.status = GameStatus.finished ∧ gD.winner = some Winner.teamA)) ∧
    ((removeFromGame g pid).teamA.players = [] →
      (removeFromGame g pid).teamB.players = [] →
      mget (gameLeave s pid).1.activeGames gid = none ∧
      mget (gameDisconnect s pid).1.activeGames gid = none) := by
  have hL := gameLeave_state_eq s pid gid g h1 h2
  have hD := gameDisconnect_state_eq s pid gid g h1 h2
  refine ⟨fun hA hB => ?_, fun hB hA => ?_, fun hA hB => ?_⟩
  · rw [hL, hD]
    exact ⟨gameRemovePlayer_A_empty s pid gid g h3 hA hB,
      gameRemovePlayer_A_empty s pid gid g h3 hA hB⟩
  · rw [hL, hD]
    exact ⟨gameRemovePlayer_B_empty s pid gid g h3 hB hA,
      gameRemovePlayer_B_empty s pid gid g h3 hB hA⟩
  · rw [hL, hD]
    exact ⟨gameRemovePlayer_destroys s pid gid g hA hB,
      gameRemovePlayer_destroys s pid gid g hA hB⟩

/-- Witness for C7: in the active 1v1 `clickServer`, player `a1` leaving
empties side A, so side B wins. -/
theorem empty_side_auto_loss_witness :
    (∃ gL, mget (gameLeave clickServer "a1").1.activeGames "g1" = some gL ∧
      gL.status = GameStatus.finished ∧ gL.winner = some Winner.teamB) ∧
    (∃ gD, mget (gameDisconnect clickServer "a1").1.activeGames "g1" = some gD ∧
      gD.status = GameStatus.finished ∧ gD.winner = some Winner.teamB) :=
  (empty_side_auto_loss clickServer "a1" "g1" clickGame (by decide) (by decide)
    (by decide)).1 (by decide) (by decide)

/-! ## C2: restart happens exactly on unanimous votes of both sides -/

theorem pruneVotes_id (g : GameState) : (pruneVotes g).id = g.id := rfl

theorem voteAdded_teamA (g : GameState) (pid : String) :
    (voteAdded g pid).teamA = g.teamA := by
  unfold voteAdded
  split <;> rfl

theorem voteAdded_teamB (g : GameState) (pid : String) :
    (voteAdded g pid).teamB = g.teamB := by
  unfold voteAdded
  split <;> rfl

theorem voteAdded_status (g : GameState) (pid : String) :
    (voteAdded g pid).status = g.status := by
  unfold voteAdded
  split <;> rfl

theorem voteAdded_id (g : GameState) (pid : String) :
    (voteAdded g pid).id = g.id := by
  unfold voteAdded
  split <;> rfl

theorem emptySideCheck_countdown (g : GameState)
    (h : g.status = GameStatus.countdown) : emptySideCheck g = g := by
  unfold emptySideCheck
  rw [if_neg]
  intro hne
  exact hne h

/-- C2: with the session finished, both sides non-empty and no restart lock
held, a `game:restart` vote triggers the restart transition exactly when,
after the vote is added, each side's vote-set size equals that side's player
count; and the restarted session has empty vote sets, `barPosition = 0`, no
winner, zeroed click counters and totals, and countdown status. -/
theorem restart_consensus (s : GameServerState) (pid gid : String)
    (g : GameState)
    (h1 : mget s.playerToGame pid = some gid)
    (h2 : mget s.activeGames gid = some g)
    (hst : g.status = GameStatus.finished)
    (hA : g.teamA.players ≠ []) (hB : g.teamB.players ≠ [])
    (hid : g.id = gid)
    (hlock : gid ∉ s.restartLocks) :
    ∃ g', mget (gameRestart s pid).1.activeGames gid = some g' ∧
      ((g'.status = GameStatus.countdown) ↔
        ((voteAdded g pid).restartVotesA.length = g.teamA.players.length ∧
         (voteAdded g pid).restartVotesB.length = g.teamB.players.length)) ∧
      (g'.status = GameStatus.countdown →
        g'.restartVotesA = [] ∧ g'.restartVotesB = [] ∧
        g'.barPosition = 0 ∧ g'.winner = none ∧
        g'.teamA.totalClicks = 0 ∧ g'.teamB.totalClicks = 0 ∧
        (∀ p ∈ g'.teamA.players, p.clicks = 0) ∧
        (∀ p ∈ g'.teamB.players, p.clicks = 0)) := by
  have hAlen : g.teamA.players.length ≠ 0 :=
    fun h => hA (List.length_eq_zero.mp h)
  have hBlen : g.teamB.players.length ≠ 0 :=
    fun h => hB (List.length_eq_zero.mp h)
  have hA1 : (voteAdded g pid).teamA.players ≠ [] := by
    rw [voteAdded_teamA]; exact hA
  have hB1 : (voteAdded g pid).teamB.players ≠ [] := by
    rw [voteAdded_teamB]; exact hB
  have hbc := broadcast_fst_of_nonempty (voteAdded g pid) hA1 hB1
  -- reduce the handler to its core
  unfold gameRestart
  rw [h1]
  dsimp only
  rw [h2]
  dsimp only
  rw [hst]
  rw [if_neg (show ¬(GameStatus.finished ≠ GameStatus.finished) by decide)]
  rw [if_neg (show ¬(g.teamA.players.length = 0 ∨ g.teamB.players.length = 0) by
    rintro (h0 | h0)
    · exact hAlen h0
    · exact hBlen h0)]
  unfold gameRestartCore
  by_cases hvote : (voteAdded g pid).restartVotesA.length
        = (voteAdded g pid).teamA.players.length ∧
      (voteAdded g pid).restartVotesB.length
        = (voteAdded g pid).teamB.players.length
  · -- unanimous: the session restarts
    rw [if_pos hvote]
    have hvote' : (voteAdded g pid).restartVotesA.length
          = g.teamA.players.length ∧
        (voteAdded g pid).restartVotesB.length = g.teamB.players.length := by
      rwa [voteAdded_teamA, voteAdded_teamB] at hvote
    refine ⟨(restartGame s.restartLocks
        (broadcastGameUpdate (voteAdded g pid)).1).2.1,
      mget_mset_self _ _ _, ?_⟩
    rw [hbc]
    have c1 : ¬((pruneVotes (voteAdded g pid)).status ≠ GameStatus.finished) := by
      rw [pruneVotes_status, voteAdded_status, hst]
      exact fun h => h rfl
    have c2 : ¬((pruneVotes (voteAdded g pid)).teamA.players.length = 0 ∨
        (pruneVotes (voteAdded g pid)).teamB.players.length = 0) := by
      rw [pruneVotes_teamA, pruneVotes_teamB, voteAdded_teamA, voteAdded_teamB]
      rintro (h0 | h0)
      · exact hAlen h0
      · exact hBlen h0
    have c3 : (pruneVotes (voteAdded g pid)).id ∉ s.restartLocks := by
      rw [pruneVotes_id, voteAdded_id, hid]
      exact hlock
    have hrg : (restartGame s.restartLocks
          (pruneVotes (voteAdded g pid))).2.1
        = (startCountdown
            (resetForRestart (pruneVotes (voteAdded g pid)))).1 := by
      unfold restartGame
      rw [if_neg c1, if_neg c2, if_neg c3]
    rw [hrg]
    have hsc : (startCountdown
          (resetForRestart (pruneVotes (voteAdded g pid)))).1
        = pruneVotes
            { resetForRestart (pruneVotes (voteAdded g pid)) with
              status := GameStatus.countdown,
              countdownRemaining := some COUNTDOWN_SECONDS } := by
      show emptySideCheck (pruneVotes
          { resetForRestart (pruneVotes (voteAdded g pid)) with
            status := GameStatus.countdown,
            countdownRemaining := some COUNTDOWN_SECONDS })
        = pruneVotes
            { resetForRestart (pruneVotes (voteAdded g pid)) with
              status := GameStatus.countdown,
              countdownRemaining := some COUNTDOWN_SECONDS }
      exact emptySideCheck_countdown _ rfl
    rw [hsc]
    refine ⟨⟨fun _ => hvote', fun _ => rfl⟩, fun _ => ?_⟩
    refine ⟨rfl, rfl, rfl, rfl, rfl, rfl, ?_, ?_⟩
    · intro p hp
      obtain ⟨q, _, rfl⟩ := List.mem_map.mp hp
      rfl
    · intro p hp
      obtain ⟨q, _, rfl⟩ := List.mem_map.mp hp
      rfl
  · -- not unanimous: no restart, session still finished
    rw [if_neg hvote]
    refine ⟨(broadcastGameUpdate (voteAdded g pid)).1, mget_mset_self _ _ _, ?_⟩
    rw [hbc]
    have hstg' : (pruneVotes (voteAdded g pid)).status = GameStatus.finished := by
      rw [pruneVotes_status, voteAdded_status, hst]
    constructor
    · constructor
      · intro hc
        rw [hstg'] at hc
        exact absurd hc (by decide)
      · intro hr
        exfalso
        apply hvote
        rw [voteAdded_teamA, voteAdded_teamB]
        exact hr
    · intro hc
      rw [hstg'] at hc
      exact absurd hc (by decide)

/-- A finished 1v1 session where side B's sole player has already voted to
restart: one more vote from side A's player is unanimous. -/
def restartReadyGame : GameState :=
  { id := "g1",
    teamA := { teamId := "t1", name := "red",
               players := [⟨"a1", "A", 25⟩], leaderId := "a1",
               totalClicks := 25 },
    teamB := { teamId := "t2", name := "blue",
               players := [⟨"b1", "B", 3⟩], leaderId := "b1",
               totalClicks := 3 },
    status := GameStatus.finished, winner := some Winner.teamA,
    barPosition := -25, countdownRemaining := none,
    restartVotesA := [], restartVotesB := ["b1"] }

/-- Server state holding `restartReadyGame`, no restart lock held. -/
def restartServer : GameServerState :=
  { activeGames := [("g1", restartReadyGame)],
    playerToGame := [("a1", "g1"), ("b1", "g1")],
    restartLocks := [] }

/-- Witness for C2: the deciding restart vote in `restartServer`. -/
theorem restart_consensus_witness :
    ∃ g', mget (gameRestart restartServer "a1").1.activeGames "g1" = some g' ∧
      ((g'.status = GameStatus.countdown) ↔
        ((voteAdded restartReadyGame "a1").restartVotesA.length
            = restartReadyGame.teamA.players.length ∧
         (voteAdded restartReadyGame "a1").restartVotesB.length
            = restartReadyGame.teamB.players.length)) ∧
      (g'.status = GameStatus.countdown →
        g'.restartVotesA = [] ∧ g'.restartVotesB = [] ∧
        g'.barPosition = 0 ∧ g'.winner = none ∧
        g'.teamA.totalClicks = 0 ∧ g'.teamB.totalClicks = 0 ∧
        (∀ p ∈ g'.teamA.players, p.clicks = 0) ∧
        (∀ p ∈ g'.teamB.players, p.clicks = 0)) :=
  restart_consensus restartServer "a1" "g1" restartReadyGame (by decide)
    (by decide) (by decide) (by decide) (by decide) (by decide) (by decide)

/-! ## C10: a finished session's recorded winner is overwritten when the
winning side departs -/

/-- C10: in a finished session, a later leave or disconnect that empties the
recorded winning side while the other side still has players makes the next
broadcast overwrite the winner with the remaining non-empty side: whichever
side had won, and for both removal paths, the stored session ends up finished
with the opposite side as winner, different from the previously recorded
one. -/
theorem finished_winner_overwritten (s : GameServerState) (pid gid : String)
    (g : GameState)
    (h1 : mget s.playerToGame pid = some gid)
    (h2 : mget s.activeGames gid = some g)
    (h3 : g.status = GameStatus.finished) :
    (g.winner = some Winner.teamA →
      (removeFromGame g pid).teamA.players = [] →
      (removeFromGame g pid).teamB.players ≠ [] →
      (∃ gL, mget (gameLeave s pid).1.activeGames gid = some gL ∧
        gL.status = GameStatus.finished ∧ gL.winner = some Winner.teamB ∧
        gL.winner ≠ g.winner) ∧
      (∃ gD, mget (gameDisconnect s pid).1.activeGames gid = some gD ∧
        gD.status = GameStatus.finished ∧ gD.winner = some Winner.teamB ∧
        gD.winner ≠ g.winner)) ∧
    (g.winner = some Winner.teamB →
      (removeFromGame g pid).teamB.players = [] →
      (removeFromGame g pid).teamA.players ≠ [] →
      (∃ gL, mget (gameLeave s pid).1.activeGames gid = some gL ∧
        gL.status = GameStatus.finished ∧ gL.winner = some Winner.teamA ∧
        gL.winner ≠ g.winner) ∧
      (∃ gD, mget (gameDisconnect s pid).1.activeGames gid = some gD ∧
        gD.status = GameStatus.finished ∧ gD.winner = some Winner.teamA ∧
        gD.winner ≠ g.winner)) := by
  have hst : g.status ≠ GameStatus.countdown := by rw [h3]; decide
  have hL := gameLeave_state_eq s pid gid g h1 h2
  have hD := gameDisconnect_state_eq s pid gid g h1 h2
  constructor
  · intro h4 hA hB
    obtain ⟨g', hget, hstw, hwin⟩ :=
      gameRemovePlayer_A_empty s pid gid g hst hA hB
    have hne : g'.winner ≠ g.winner := by
      rw [hwin, h4]
      decide
    exact ⟨⟨g', hL ▸ hget, hstw, hwin, hne⟩, ⟨g', hD ▸ hget, hstw, hwin, hne⟩⟩
  · intro h4 hB hA
    obtain ⟨g', hget, hstw, hwin⟩ :=
      gameRemovePlayer_B_empty s pid gid g hst hB hA
    have hne : g'.winner ≠ g.winner := by
      rw [hwin, h4]
      decide
    exact ⟨⟨g', hL ▸ hget, hstw, hwin, hne⟩, ⟨g', hD ▸ hget, hstw, hwin, hne⟩⟩

/-- A finished 1v1 session won by side A, both players still present. -/
def finishedGame : GameState :=
  { id := "g1",
    teamA := { teamId := "t1", name := "red",
               players := [⟨"a1", "A", 25⟩], leaderId := "a1",
               totalClicks := 25 },
    teamB := { teamId := "t2", name := "blue",
               players := [⟨"b1", "B", 0⟩], leaderId := "b1",
               totalClicks := 0 },
    status := GameStatus.finished, winner := some Winner.teamA,
    barPosition := -25, countdownRemaining := none,
    restartVotesA := [], restartVotesB := [] }

/-- Server state holding `finishedGame`. -/
def finishedServer : GameServerState :=
  { activeGames := [("g1", finishedGame)],
    playerToGame := [("a1", "g1"), ("b1", "g1")],
    restartLocks := [] }

/-- Witness for C10: the winning player `a1` departs from the finished
session — by leave and by disconnect — and the recorded winner flips to
side B on both paths. -/
theorem finished_winner_overwritten_witness :
    (∃ gL, mget (gameLeave finishedServer "a1").1.activeGames "g1"
        = some gL ∧
      gL.status = GameStatus.finished ∧ gL.winner = some Winner.teamB ∧
      gL.winner ≠ finishedGame.winner) ∧
    (∃ gD, mget (gameDisconnect finishedServer "a1").1.activeGames "g1"
        = some gD ∧
      gD.status = GameStatus.finished ∧ gD.winner = some Winner.teamB ∧
      gD.winner ≠ finishedGame.winner) :=
  (finished_winner_overwritten finishedServer "a1" "g1" finishedGame
    (by decide) (by decide) (by decide)).1 (by decide) (by decide) (by decide)

/-! ## Team-registry invariants (C3, C4) -/

/-- Every registered team's leader id belongs to its participant set. -/
def teamsLeaderInv (m : List (String × Team)) : Prop :=
  ∀ kv ∈ m, ∃ p ∈ kv.2.participants, p.id = kv.2.leaderId

/-- Every registered team respects the size cap. -/
def teamsSizeInv (m : List (String × Team)) : Prop :=
  ∀ kv ∈ m, kv.2.participants.length ≤ MAX_TEAM_SIZE

theorem dequeueIfQueued_participants (q : List (Nat × List String)) (t : Team)
    (r : String) : (dequeueIfQueued q t r).2.1.participants = t.participants := by
  unfold dequeueIfQueued dequeueTeamPure
  split
  · rfl
  · rfl

theorem dequeueIfQueued_leaderId (q : List (Nat × List String)) (t : Team)
    (r : String) : (dequeueIfQueued q t r).2.1.leaderId = t.leaderId := by
  unfold dequeueIfQueued dequeueTeamPure
  split
  · rfl
  · rfl

theorem promoteIfNeeded_participants (teamId : String) (t : Team)
    (pid : String) :
    (promoteIfNeeded teamId t pid).1.participants = t.participants := by
  unfold promoteIfNeeded
  split <;> rfl

theorem headD_mem {α : Type} (l : List α) (d : α) (h : l ≠ []) :
    l.headD d ∈ l := by
  cases l with
  | nil => exact absurd rfl h
  | cons a t => exact List.mem_cons_self _ _

theorem mem_eraseP_of_pred_false {α : Type} {l : List α} {a : α} {q : α → Bool}
    (h : a ∈ l) (hq : q a = false) : a ∈ l.eraseP q := by
  induction l with
  | nil => cases h
  | cons b t ih =>
    by_cases hb : q b = true
    · rw [List.eraseP_cons_of_pos hb]
      rcases List.mem_cons.mp h with rfl | h1
      · rw [hq] at hb; cases hb
      · exact h1
    · rw [List.eraseP_cons_of_neg (by simpa using hb)]
      rcases List.mem_cons.mp h with rfl | h1
      · exact List.mem_cons_self _ _
      · exact List.mem_cons_of_mem _ (ih h1)

/-- The leader survives the leave-removal step when the leaver is not the
leader. -/
theorem teamInv_removeDeparting (teamId : String) (t : Team) (pid : String)
    (hinv : ∃ p ∈ t.participants, p.id = t.leaderId)
    (hleader : t.leaderId ≠ pid) :
    ∃ p ∈ (removeDeparting teamId t pid).1.participants,
      p.id = (removeDeparting teamId t pid).1.leaderId := by
  unfold removeDeparting
  split
  · obtain ⟨p, hp, hpid⟩ := hinv
    refine ⟨p, ?_, hpid⟩
    refine mem_eraseP_of_pred_false hp ?_
    rw [hpid]
    exact beq_eq_false_iff_ne.mpr hleader
  · exact hinv

/-- The leader survives the disconnect-removal step when the departed player
is not the leader. -/
theorem teamInv_removeAllWithId (t : Team) (pid : String)
    (hinv : ∃ p ∈ t.participants, p.id = t.leaderId)
    (hleader : t.leaderId ≠ pid) :
    ∃ p ∈ (removeAllWithId t pid).participants,
      p.id = (removeAllWithId t pid).leaderId := by
  obtain ⟨p, hp, hpid⟩ := hinv
  refine ⟨p, ?_, hpid⟩
  refine List.mem_filter.mpr ⟨hp, ?_⟩
  simp only [Bool.not_eq_true', beq_eq_false_iff_ne]
  rw [hpid]
  exact hleader

theorem removeDeparting_leaderId (teamId : String) (t : Team) (pid : String) :
    (removeDeparting teamId t pid).1.leaderId = t.leaderId := by
  unfold removeDeparting
  split <;> rfl

theorem removeAllWithId_leaderId (t : Team) (pid : String) :
    (removeAllWithId t pid).leaderId = t.leaderId := rfl

theorem dequeueTeamPure_participants (q : List (Nat × List String)) (t : Team)
    (r : String) : (dequeueTeamPure q t r).2.1.participants = t.participants := by
  unfold dequeueTeamPure
  split <;> rfl

theorem dequeueTeamPure_leaderId (q : List (Nat × List String)) (t : Team)
    (r : String) : (dequeueTeamPure q t r).2.1.leaderId = t.leaderId := by
  unfold dequeueTeamPure
  split <;> rfl

/-- Leader-succession preserves the membership invariant: either the leader
did not leave (and survives), or the head of the remaining participants is
promoted. -/
theorem teamInv_promote (teamId : String) (t2 : Team) (pid : String)
    (hlen : t2.participants.length ≠ 0)
    (hinv2 : t2.leaderId ≠ pid → ∃ p ∈ t2.participants, p.id = t2.leaderId) :
    ∃ p ∈ (promoteIfNeeded teamId t2 pid).1.participants,
      p.id = (promoteIfNeeded teamId t2 pid).1.leaderId := by
  unfold promoteIfNeeded
  split
  · next hc =>
    exact ⟨t2.participants.headD ⟨"", ""⟩,
      headD_mem _ _ (List.length_pos.mp hc.2), rfl⟩
  · next hc =>
    exact hinv2 (fun h => hc ⟨h, Nat.pos_of_ne_zero hlen⟩)

theorem teamsLeaderInv_mupd_flag (m : List (String × Team)) (k : String)
    (b : Bool) (hinv : teamsLeaderInv m) :
    teamsLeaderInv (mupd m k (fun t => { t with inQueue := b })) := by
  intro kv hkv
  rcases mem_mupd hkv with h | ⟨kv', hm, rfl⟩
  · exact hinv kv h
  · exact hinv kv' hm

theorem attemptMatch_inv_leader (s : TeamServerState) (size : Nat)
    (hinv : teamsLeaderInv s.teams) :
    teamsLeaderInv (attemptMatch s size).1.teams := by
  unfold attemptMatch
  cases hq : qget s.teamQueues size with
  | none => exact hinv
  | some list =>
    rcases list with _ | ⟨a, _ | ⟨b, rest⟩⟩
    · exact hinv
    · exact hinv
    · exact teamsLeaderInv_mupd_flag _ _ _ (teamsLeaderInv_mupd_flag _ _ _ hinv)

theorem enqueueTeam_inv_leader (s : TeamServerState) (tid : String)
    (hinv : teamsLeaderInv s.teams) :
    teamsLeaderInv (enqueueTeam s tid).1.teams := by
  unfold enqueueTeam
  cases hm : mget s.teams tid with
  | none => exact hinv
  | some team =>
    dsimp only
    split
    · exact attemptMatch_inv_leader _ _ hinv
    · exact attemptMatch_inv_leader _ _ (teamsLeaderInv_mupd_flag _ _ _ hinv)

theorem leaderInv_create (s : TeamServerState) (pid pname tname newId : String)
    (hinv : teamsLeaderInv s.teams) :
    teamsLeaderInv (teamCreate s pid pname tname newId).1.teams := by
  unfold teamCreate
  split
  · exact hinv
  · intro kv hkv
    rcases mem_mset hkv with rfl | h
    · exact ⟨⟨pid, pname⟩, List.mem_cons_self _ _, rfl⟩
    · exact hinv kv h

theorem leaderInv_join (s : TeamServerState) (pid pname code : String)
    (hinv : teamsLeaderInv s.teams) :
    teamsLeaderInv (teamJoin s pid pname code).1.teams := by
  unfold teamJoin
  split
  · exact hinv
  · cases hm : mget s.teams code with
    | none => exact hinv
    | some team =>
      dsimp only
      split
      · exact hinv
      · intro kv hkv
        rcases mem_mset hkv with rfl | h
        · obtain ⟨p, hp, hpid⟩ := hinv (code, team) (mget_mem hm)
          refine ⟨p, List.mem_append_left _ ?_, ?_⟩
          · show p ∈ (dequeueIfQueued s.teamQueues team "Player joined").2.1.participants
            rw [dequeueIfQueued_participants]
            exact hp
          · show p.id
              = (dequeueIfQueued s.teamQueues team "Player joined").2.1.leaderId
            rw [dequeueIfQueued_leaderId]
            exact hpid
        · exact hinv kv h

theorem leaderInv_leave (s : TeamServerState) (pid : String)
    (hinv : teamsLeaderInv s.teams) :
    teamsLeaderInv (teamLeave s pid).1.teams := by
  unfold teamLeave
  cases hpt : mget s.playerTeam pid with
  | none => exact hinv
  | some teamId =>
    dsimp only
    cases htm : mget s.teams teamId with
    | none => exact hinv
    | some team =>
      dsimp only
      intro kv hkv
      split at hkv
      · exact hinv kv (mem_mdel hkv)
      · next hne =>
        rcases mem_mset hkv with rfl | h
        · apply teamInv_promote
          · intro h0
            apply hne
            rw [promoteIfNeeded_participants]
            exact h0
          · intro hl
            apply teamInv_removeDeparting
            · obtain ⟨p, hp, hpid⟩ := hinv (teamId, team) (mget_mem htm)
              refine ⟨p, ?_, ?_⟩
              · rw [dequeueIfQueued_participants]
                exact hp
              · rw [dequeueIfQueued_leaderId]
                exact hpid
            · rw [removeDeparting_leaderId] at hl
              exact hl
        · exact hinv kv h

theorem leaderInv_disconnect (s : TeamServerState) (pid : String)
    (hinv : teamsLeaderInv s.teams) :
    teamsLeaderInv (teamDisconnect s pid).1.teams := by
  unfold teamDisconnect
  cases hpt : mget s.playerTeam pid with
  | none => exact hinv
  | some teamId =>
    dsimp only
    cases htm : mget s.teams teamId with
    | none => exact hinv
    | some team =>
      dsimp only
      intro kv hkv
      split at hkv
      · exact hinv kv (mem_mdel hkv)
      · next hne =>
        rcases mem_mset hkv with rfl | h
        · apply teamInv_promote
          · intro h0
            apply hne
            rw [promoteIfNeeded_participants]
            exact h0
          · intro hl
            apply teamInv_removeAllWithId
            · obtain ⟨p, hp, hpid⟩ := hinv (teamId, team) (mget_mem htm)
              refine ⟨p, ?_, ?_⟩
              · rw [dequeueIfQueued_participants]
                exact hp
              · rw [dequeueIfQueued_leaderId]
                exact hpid
            · rw [removeAllWithId_leaderId] at hl
              exact hl
        · exact hinv kv h

theorem leaderInv_matchStart (s : TeamServerState) (pid : String)
    (hinv : teamsLeaderInv s.teams) :
    teamsLeaderInv (teamMatchStart s pid).1.teams := by
  unfold teamMatchStart
  cases hpt : mget s.playerTeam pid with
  | none => exact hinv
  | some teamId =>
    dsimp only
    cases htm : mget s.teams teamId with
    | none => exact hinv
    | some team =>
      dsimp only
      split
      · exact hinv
      · split
        · exact hinv
        · split
          · exact hinv
          · exact enqueueTeam_inv_leader _ _ hinv

theorem leaderInv_matchCancel (s : TeamServerState) (pid : String)
    (hinv : teamsLeaderInv s.teams) :
    teamsLeaderInv (teamMatchCancel s pid).1.teams := by
  unfold teamMatchCancel
  cases hpt : mget s.playerTeam pid with
  | none => exact hinv
  | some teamId =>
    dsimp only
    cases htm : mget s.teams teamId with
    | none => exact hinv
    | some team =>
      dsimp only
      split
      · exact hinv
      · split
        · exact hinv
        · intro kv hkv
          rcases mem_mset hkv with rfl | h
          · obtain ⟨p, hp, hpid⟩ := hinv (teamId, team) (mget_mem htm)
            refine ⟨p, ?_, ?_⟩
            · rw [dequeueTeamPure_participants]
              exact hp
            · rw [dequeueTeamPure_leaderId]
              exact hpid
          · exact hinv kv h

/-- C3: every team-registry operation (create, join, leave, disconnect, and
also the matchmaking operations) preserves the invariant that each existing
team's leader id belongs to its participant set. -/
theorem team_leader_always_member (s : TeamServerState) (op : TeamOp)
    (hinv : teamsLeaderInv s.teams) :
    teamsLeaderInv (applyTeamOp s op).teams := by
  cases op with
  | create pid pname tname newId => exact leaderInv_create s pid pname tname newId hinv
  | join pid pname code => exact leaderInv_join s pid pname code hinv
  | leave pid => exact leaderInv_leave s pid hinv
  | disconnect pid => exact leaderInv_disconnect s pid hinv
  | matchStart pid => exact leaderInv_matchStart s pid hinv
  | matchCancel pid => exact leaderInv_matchCancel s pid hinv

/-- A two-player team led by `a1`. -/
def twoPlayerTeam : Team :=
  { id := "T1", name := "red", participants := [⟨"a1", "A"⟩, ⟨"b1", "B"⟩],
    leaderId := "a1", inQueue := false }

/-- A registry holding only `twoPlayerTeam`. -/
def twoPlayerRegistry : TeamServerState :=
  { teams := [("T1", twoPlayerTeam)],
    playerTeam := [("a1", "T1"), ("b1", "T1")],
    teamQueues := [] }

/-- Witness for C3: the leader leaves a two-player team; the survivor is
promoted, keeping the invariant. -/
theorem team_leader_always_member_witness :
    teamsLeaderInv (applyTeamOp twoPlayerRegistry (TeamOp.leave "a1")).teams :=
  team_leader_always_member twoPlayerRegistry (TeamOp.leave "a1")
    (by unfold teamsLeaderInv; decide)

/-! ## C4: team size cap and the TeamFull error -/

theorem teamsSizeInv_mupd_flag (m : List (String × Team)) (k : String)
    (b : Bool) (hinv : teamsSizeInv m) :
    teamsSizeInv (mupd m k (fun t => { t with inQueue := b })) := by
  intro kv hkv
  rcases mem_mupd hkv with h | ⟨kv', hm, rfl⟩
  · exact hinv kv h
  · exact hinv kv' hm

theorem attemptMatch_inv_size (s : TeamServerState) (size : Nat)
    (hinv : teamsSizeInv s.teams) :
    teamsSizeInv (attemptMatch s size).1.teams := by
  unfold attemptMatch
  cases hq : qget s.teamQueues size with
  | none => exact hinv
  | some list =>
    rcases list with _ | ⟨a, _ | ⟨b, rest⟩⟩
    · exact hinv
    · exact hinv
    · exact teamsSizeInv_mupd_flag _ _ _ (teamsSizeInv_mupd_flag _ _ _ hinv)

theorem enqueueTeam_inv_size (s : TeamServerState) (tid : String)
    (hinv : teamsSizeInv s.teams) :
    teamsSizeInv (enqueueTeam s tid).1.teams := by
  unfold enqueueTeam
  cases hm : mget s.teams tid with
  | none => exact hinv
  | some team =>
    dsimp only
    split
    · exact attemptMatch_inv_size _ _ hinv
    · exact attemptMatch_inv_size _ _ (teamsSizeInv_mupd_flag _ _ _ hinv)

theorem sizeInv_create (s : TeamServerState) (pid pname tname newId : String)
    (hinv : teamsSizeInv s.teams) :
    teamsSizeInv (teamCreate s pid pname tname newId).1.teams := by
  unfold teamCreate
  split
  · exact hinv
  · intro kv hkv
    rcases mem_mset hkv with rfl | h
    · show (1 : Nat) ≤ MAX_TEAM_SIZE
      decide
    · exact hinv kv h

theorem sizeInv_join (s : TeamServerState) (pid pname code : String)
    (hinv : teamsSizeInv s.teams) :
    teamsSizeInv (teamJoin s pid pname code).1.teams := by
  unfold teamJoin
  split
  · exact hinv
  · cases hm : mget s.teams code with
    | none => exact hinv
    | some team =>
      dsimp only
      split
      · exact hinv
      · next hfull =>
        intro kv hkv
        rcases mem_mset hkv with rfl | h
        · show ((dequeueIfQueued s.teamQueues team "Player joined").2.1.participants
              ++ [({ id := pid, name := pname } : Player)]).length ≤ MAX_TEAM_SIZE
          rw [List.length_append, dequeueIfQueued_participants]
          simp only [List.length_singleton]
          omega
        · exact hinv kv h

theorem sizeInv_leave (s : TeamServerState) (pid : String)
    (hinv : teamsSizeInv s.teams) :
    teamsSizeInv (teamLeave s pid).1.teams := by
  unfold teamLeave
  cases hpt : mget s.playerTeam pid with
  | none => exact hinv
  | some teamId =>
    dsimp only
    cases htm : mget s.teams teamId with
    | none => exact hinv
    | some team =>
      dsimp only
      intro kv hkv
      split at hkv
      · exact hinv kv (mem_mdel hkv)
      · rcases mem_mset hkv with rfl | h
        · show (promoteIfNeeded teamId
              (removeDeparting teamId
                (dequeueIfQueued s.teamQueues team "Player left").2.1 pid).1
              pid).1.participants.length ≤ MAX_TEAM_SIZE
          rw [promoteIfNeeded_participants]
          have hle : (removeDeparting teamId
              (dequeueIfQueued s.teamQueues team "Player left").2.1 pid).1.participants.length
              ≤ team.participants.length := by
            unfold removeDeparting
            split
            · show ((dequeueIfQueued s.teamQueues team "Player left").2.1.participants.eraseP
                  (fun p => p.id == pid)).length ≤ team.participants.length
              calc ((dequeueIfQueued s.teamQueues team "Player left").2.1.participants.eraseP
                    (fun p => p.id == pid)).length
                  ≤ (dequeueIfQueued s.teamQueues team "Player left").2.1.participants.length :=
                    (List.eraseP_sublist _).length_le
                _ = team.participants.length := by rw [dequeueIfQueued_participants]
            · show (dequeueIfQueued s.teamQueues team "Player left").2.1.participants.length
                  ≤ team.participants.length
              rw [dequeueIfQueued_participants]
          exact le_trans hle (hinv (teamId, team) (mget_mem htm))
        · exact hinv kv h

theorem sizeInv_disconnect (s : TeamServerState) (pid : String)
    (hinv : teamsSizeInv s.teams) :
    teamsSizeInv (teamDisconnect s pid).1.teams := by
  unfold teamDisconnect
  cases hpt : mget s.playerTeam pid with
  | none => exact hinv
  | some teamId =>
    dsimp only
    cases htm : mget s.teams teamId with
    | none => exact hinv
    | some team =>
      dsimp only
      intro kv hkv
      split at hkv
      · exact hinv kv (mem_mdel hkv)
      · rcases mem_mset hkv with rfl | h
        · show (promoteIfNeeded teamId
              (removeAllWithId
                (dequeueIfQueued s.teamQueues team "Disconnect").2.1 pid)
              pid).1.participants.length ≤ MAX_TEAM_SIZE
          rw [promoteIfNeeded_participants]
          have hle : (removeAllWithId
              (dequeueIfQueued s.teamQueues team "Disconnect").2.1 pid).participants.length
              ≤ team.participants.length := by
            show ((dequeueIfQueued s.teamQueues team "Disconnect").2.1.participants.filter
                (fun p => !(p.id == pid))).length ≤ team.participants.length
            calc ((dequeueIfQueued s.teamQueues team "Disconnect").2.1.participants.filter
                  (fun p => !(p.id == pid))).length
                ≤ (dequeueIfQueued s.teamQueues team "Disconnect").2.1.participants.length :=
                  List.length_filter_le _ _
              _ = team.participants.length := by rw [dequeueIfQueued_participants]
          exact le_trans hle (hinv (teamId, team) (mget_mem htm))
        · exact hinv kv h

theorem sizeInv_matchStart (s : TeamServerState) (pid : String)
    (hinv : teamsSizeInv s.teams) :
    teamsSizeInv (teamMatchStart s pid).1.teams := by
  unfold teamMatchStart
  cases hpt : mget s.playerTeam pid with
  | none => exact hinv
  | some teamId =>
    dsimp only
    cases htm : mget s.teams teamId with
    | none => exact hinv
    | some team =>
      dsimp only
      split
      · exact hinv
      · split
        · exact hinv
        · split
          · exact hinv
          · exact enqueueTeam_inv_size _ _ hinv

theorem sizeInv_matchCancel (s : TeamServerState) (pid : String)
    (hinv : teamsSizeInv s.teams) :
    teamsSizeInv (teamMatchCancel s pid).1.teams := by
  unfold teamMatchCancel
  cases hpt : mget s.playerTeam pid with
  | none => exact hinv
  | some teamId =>
    dsimp only
    cases htm : mget s.teams teamId with
    | none => exact hinv
    | some team =>
      dsimp only
      split
      · exact hinv
      · split
        · exact hinv
        · intro kv hkv
          rcases mem_mset hkv with rfl | h
          · show (dequeueTeamPure s.teamQueues team "Leader cancelled").2.1.participants.length
                ≤ MAX_TEAM_SIZE
            rw [dequeueTeamPure_participants]
            exact hinv (teamId, team) (mget_mem htm)
          · exact hinv kv h

theorem sizeInv_step (s : TeamServerState) (op : TeamOp)
    (hinv : teamsSizeInv s.teams) : teamsSizeInv (applyTeamOp s op).teams := by
  cases op with
  | create pid pname tname newId => exact sizeInv_create s pid pname tname newId hinv
  | join pid pname code => exact sizeInv_join s pid pname code hinv
  | leave pid => exact sizeInv_leave s pid hinv
  | disconnect pid => exact sizeInv_disconnect s pid hinv
  | matchStart pid => exact sizeInv_matchStart s pid hinv
  | matchCancel pid => exact sizeInv_matchCancel s pid hinv

/-- C4: across every sequence of registry operations no team ever exceeds
`MAX_TEAM_SIZE`; and a join request (by an unindexed player) aimed at a team
already at `MAX_TEAM_SIZE` fails with the "Team full" error and changes
nothing at all. -/
theorem team_size_never_exceeds_cap :
    (∀ (s : TeamServerState) (ops : List TeamOp), teamsSizeInv s.teams →
      teamsSizeInv (ops.foldl applyTeamOp s).teams) ∧
    (∀ (s : TeamServerState) (pid pname code : String) (team : Team),
      mget s.playerTeam pid = none →
      mget s.teams code = some team →
      team.participants.length = MAX_TEAM_SIZE →
      teamJoin s pid pname code = (s, [TEvt.teamError pid "Team full"])) := by
  constructor
  · intro s ops
    induction ops generalizing s with
    | nil => exact fun h => h
    | cons op rest ih => exact fun h => ih (applyTeamOp s op) (sizeInv_step s op h)
  · intro s pid pname code team hpt htm hsz
    unfold teamJoin
    rw [hpt]
    rw [if_neg (show ¬(Option.isSome (none : Option String) = true) by decide)]
    rw [htm]
    dsimp only
    rw [if_pos (show team.participants.length ≥ MAX_TEAM_SIZE by omega)]

/-- A team already at the size cap. -/
def fullTeam : Team :=
  { id := "T9", name := "full",
    participants := [⟨"p1", "P1"⟩, ⟨"p2", "P2"⟩, ⟨"p3", "P3"⟩, ⟨"p4", "P4"⟩,
      ⟨"p5", "P5"⟩],
    leaderId := "p1", inQueue := false }

/-- A registry holding only `fullTeam`. -/
def fullRegistry : TeamServerState :=
  { teams := [("T9", fullTeam)],
    playerTeam := [("p1", "T9"), ("p2", "T9"), ("p3", "T9"), ("p4", "T9"),
      ("p5", "T9")],
    teamQueues := [] }

/-- Witness for C4: a join sequence keeps the cap, and joining `fullTeam`
fails with "Team full" leaving the state untouched. -/
theorem team_size_never_exceeds_cap_witness :
    teamsSizeInv (([TeamOp.join "c1" "C" "T1"].foldl applyTeamOp
      twoPlayerRegistry)).teams ∧
    teamJoin fullRegistry "f1" "F" "T9"
      = (fullRegistry, [TEvt.teamError "f1" "Team full"]) :=
  ⟨team_size_never_exceeds_cap.1 twoPlayerRegistry [TeamOp.join "c1" "C" "T1"]
      (by unfold teamsSizeInv; decide),
   team_size_never_exceeds_cap.2 fullRegistry "f1" "F" "T9" fullTeam
      (by decide) (by decide) (by decide)⟩

/-! ## C5: enqueue idempotence and FIFO matching -/

theorem qget_qset_self {α : Type} (m : List (Nat × α)) (k : Nat) (v : α) :
    qget (qset m k v) k = some v := by
  simp [qget, qset]

theorem qget_qdel_self {α : Type} (m : List (Nat × α)) (k : Nat) :
    qget (qdel m k) k = none := by
  induction m with
  | nil => rfl
  | cons kv rest ih =>
    obtain ⟨k', v'⟩ := kv
    by_cases h : k' = k
    · simp only [qdel, List.filter_cons] at ih ⊢
      simp [h, ih]
    · simp only [qdel, List.filter_cons] at ih ⊢
      simp [h, qget, ih]

theorem mget_mupd_ne {α : Type} (m : List (String × α)) (k k' : String)
    (f : α → α) (h : k ≠ k') : mget (mupd m k f) k' = mget m k' := by
  induction m with
  | nil => rfl
  | cons kv rest ih =>
    obtain ⟨k0, v0⟩ := kv
    by_cases h0 : k0 = k
    · subst h0
      simp [mupd, mget, h, ih]
    · simp [mupd, mget, h0, ih]

/-- C5: (1) enqueueing a team already present in its size bucket adds no
second entry and emits no queued event — the handler degenerates to the
match attempt; (2) with no bucket and (3) with fewer than two queued teams,
`attemptMatch` changes nothing and pairs nobody; (4) with at least two queued
teams it pairs exactly the two front-of-list (earliest-enqueued) teams,
clears both queued flags, and deletes the bucket exactly when it emptied. -/
theorem matchmaking_fifo_and_idempotent :
    (∀ (s : TeamServerState) (tid : String) (team : Team) (list : List String),
      mget s.teams tid = some team →
      qget s.teamQueues team.participants.length = some list →
      tid ∈ list →
      enqueueTeam s tid
        = ((attemptMatch s team.participants.length).1, [],
            (attemptMatch s team.participants.length).2)) ∧
    (∀ (s : TeamServerState) (size : Nat),
      qget s.teamQueues size = none → attemptMatch s size = (s, none)) ∧
    (∀ (s : TeamServerState) (size : Nat) (list : List String),
      qget s.teamQueues size = some list → list.length < 2 →
      attemptMatch s size = (s, none)) ∧
    (∀ (s : TeamServerState) (size : Nat) (a b : String) (rest : List String),
      qget s.teamQueues size = some (a :: b :: rest) →
      (attemptMatch s size).2 = some (a, b) ∧
      (∀ t, mget (attemptMatch s size).1.teams a = some t →
        t.inQueue = false) ∧
      (∀ t, mget (attemptMatch s size).1.teams b = some t →
        t.inQueue = false) ∧
      (rest = [] → qget (attemptMatch s size).1.teamQueues size = none) ∧
      (rest ≠ [] → qget (attemptMatch s size).1.teamQueues size = some rest)) := by
  refine ⟨?_, ?_, ?_, ?_⟩
  · intro s tid team list hm hq hmem
    unfold enqueueTeam
    rw [hm]
    dsimp only
    rw [hq]
    simp only [Option.getD_some]
    rw [if_pos hmem]
  · intro s size hq
    unfold attemptMatch
    rw [hq]
  · intro s size list hq hlen
    unfold attemptMatch
    rw [hq]
    rcases list with _ | ⟨x, _ | ⟨y, r⟩⟩
    · rfl
    · rfl
    · simp at hlen
      omega
  · intro s size a b rest hq
    unfold attemptMatch
    rw [hq]
    dsimp only
    refine ⟨rfl, ?_, ?_, fun hrest => ?_, fun hrest => ?_⟩
    · intro t ht
      by_cases hab : b = a
      · subst hab
        rw [mget_mupd, mget_mupd] at ht
        rcases Option.map_eq_some'.mp ht with ⟨u, hu, rfl⟩
        rfl
      · rw [mget_mupd_ne _ _ _ _ hab, mget_mupd] at ht
        rcases Option.map_eq_some'.mp ht with ⟨u, hu, rfl⟩
        rfl
    · intro t ht
      rw [mget_mupd] at ht
      rcases Option.map_eq_some'.mp ht with ⟨u, hu, rfl⟩
      rfl
    · rw [if_pos hrest]
      exact qget_qdel_self _ _
    · rw [if_neg hrest]
      exact qget_qset_self _ _ _

/-- A two-player team already sitting in the size-2 bucket. -/
def queuedTeam : Team :=
  { id := "T1", name := "red", participants := [⟨"a1", "A"⟩, ⟨"b1", "B"⟩],
    leaderId := "a1", inQueue := true }

/-- Registry where `queuedTeam` is queued in its bucket. -/
def queueServer : TeamServerState :=
  { teams := [("T1", queuedTeam)],
    playerTeam := [("a1", "T1"), ("b1", "T1")],
    teamQueues := [(2, ["T1"])] }

/-- A solo team constructor used by the FIFO witness. -/
def soloTeam (tid pid : String) : Team :=
  { id := tid, name := tid, participants := [⟨pid, pid⟩],
    leaderId := pid, inQueue := true }

/-- Three queued solo teams; FIFO must pair the first two. -/
def fifoServer : TeamServerState :=
  { teams := [("A", soloTeam "A" "pa"), ("B", soloTeam "B" "pb"),
      ("C", soloTeam "C" "pc")],
    playerTeam := [("pa", "A"), ("pb", "B"), ("pc", "C")],
    teamQueues := [(1, ["A", "B", "C"])] }

/-- Witness for C5: re-enqueueing `queuedTeam` degenerates to the match
attempt, and matching the size-1 bucket pairs the two longest-waiting teams
`A` and `B`, leaving `C` queued. -/
theorem matchmaking_fifo_and_idempotent_witness :
    (enqueueTeam queueServer "T1"
      = ((attemptMatch queueServer queuedTeam.participants.length).1, [],
          (attemptMatch queueServer queuedTeam.participants.length).2)) ∧
    ((attemptMatch fifoServer 1).2 = some ("A", "B") ∧
      (∀ t, mget (attemptMatch fifoServer 1).1.teams "A" = some t →
        t.inQueue = false) ∧
      (∀ t, mget (attemptMatch fifoServer 1).1.teams "B" = some t →
        t.inQueue = false) ∧
      ((["C"] : List String) = [] →
        qget (attemptMatch fifoServer 1).1.teamQueues 1 = none) ∧
      ((["C"] : List String) ≠ [] →
        qget (attemptMatch fifoServer 1).1.teamQueues 1 = some ["C"])) :=
  ⟨matchmaking_fifo_and_idempotent.1 queueServer "T1" queuedTeam ["T1"]
      (by decide) (by decide) (by decide),
   matchmaking_fifo_and_idempotent.2.2.2 fifoServer 1 "A" "B" ["C"]
      (by decide)⟩
